import Mathlib

/-!
# eigenpy: conversion between Eigen matrices and numpy arrays

A shallow embedding of `include/eigenpy/details.hpp`.

* C++ scalar types are the constructors of `CScalar`; numpy type numbers are integers.
* A matrix type (`MatType`) is its scalar and its two compile-time sizes, `Eigen::Dynamic`
  being `-1`.
* A numpy array (`PyArrayObject`) is its type number, its dimension sizes (the rank is the
  number of dimension sizes), its flags word and its elements in logical (row-major) order.
  Strides and the byte layout of the buffer are not modelled.
* The process-wide state (`Process`) holds the two function-local statics of `NumpyType`
  and the number of deprecation warnings written to `std::cerr`.
* The diagnostics printed under `#ifndef NDEBUG` in `convertible` change no result and
  are left out.
-/

namespace eigenpy

/-! ## Scalar types -/

/-- The type number `NPY_INT` of numpy's `NPY_TYPES` enumeration. -/
def NPY_INT : Int := 5

/-- The type number `NPY_LONG` of numpy's `NPY_TYPES` enumeration. -/
def NPY_LONG : Int := 7

/-- The type number `NPY_FLOAT` of numpy's `NPY_TYPES` enumeration. -/
def NPY_FLOAT : Int := 11

/-- The type number `NPY_DOUBLE` of numpy's `NPY_TYPES` enumeration. -/
def NPY_DOUBLE : Int := 12

/-- The C++ scalar types for which `NumpyEquivalentType` is specialised. -/
inductive CScalar
  | int
  | long
  | float
  | double
  deriving DecidableEq, Repr

/-- The enumerator `NumpyEquivalentType<SCALAR>::type_code`. -/
def NumpyEquivalentType.type_code : CScalar → Int
  | .double => NPY_DOUBLE
  | .int => NPY_INT
  | .long => NPY_LONG
  | .float => NPY_FLOAT

/-- The trait `FromTypeToType<SCALAR1,SCALAR2>::value`: the primary template is false, the
partial specialisation on equal types is true, and six full specialisations are true. -/
def FromTypeToType : CScalar → CScalar → Bool
  | .int, .long => true
  | .int, .float => true
  | .int, .double => true
  | .long, .float => true
  | .long, .double => true
  | .float, .double => true
  | s1, s2 => decide (s1 = s2)

/-! ## Matrix types and array objects -/

/-- The constant `Eigen::Dynamic`. -/
def Dynamic : Int := -1

/-- The constant `INT_MAX` of a 32-bit `int`. -/
def INT_MAX : Int := 2147483647

/-- The conversion `(int)x` of a 64-bit integer to a 32-bit `int` (two's complement). -/
def toInt32 (x : Int) : Int := (x + 2147483648) % 4294967296 - 2147483648

/-- What the code uses of an Eigen matrix type: `MatType::Scalar`,
`MatType::RowsAtCompileTime` and `MatType::ColsAtCompileTime`. -/
structure MatType where
  Scalar : CScalar
  RowsAtCompileTime : Int
  ColsAtCompileTime : Int
  deriving DecidableEq, Repr

/-- Eigen's `MatType::IsVectorAtCompileTime`: one of the two compile-time sizes is 1. -/
def MatType.IsVectorAtCompileTime (M : MatType) : Bool :=
  M.RowsAtCompileTime == 1 || M.ColsAtCompileTime == 1

/-- The value of one matrix coefficient or array element. Its scalar type is kept beside
it (in the matrix type or the array's type number); conversions between scalar types are
a parameter `cast` of the functions that convert. -/
abbrev Coeff := Int

/-- A numpy array object: `type_num` is what `GET_PY_ARRAY_TYPE` returns, `dims` is
`PyArray_DIMS` (its length is `PyArray_NDIM`), `flags` is `PyArray_FLAGS`, and `data` holds
the elements in logical row-major order. -/
structure PyArrayObject where
  type_num : Int
  dims : List Nat
  flags : Nat
  data : List Coeff
  deriving DecidableEq, Repr

/-- The macro `PyArray_NDIM`. -/
def PyArray_NDIM (a : PyArrayObject) : Nat := a.dims.length

/-- The macro `GET_PY_ARRAY_TYPE`. -/
def GET_PY_ARRAY_TYPE (a : PyArrayObject) : Int := a.type_num

/-- The flag `NPY_ALIGNED` (`NPY_ARRAY_ALIGNED`) of numpy. -/
def NPY_ALIGNED : Nat := 0x0100

/-- The flag `NPY_ARRAY_OWNDATA` of numpy. -/
def NPY_OWNDATA : Nat := 0x0004

/-- The flags `NPY_ARRAY_CARRAY` of numpy: C-contiguous, aligned and writeable. -/
def NPY_CARRAY : Nat := 0x0501

/-- A Python object as the converters see it: an instance of exactly `numpy.ndarray`, an
instance of `numpy.matrix` (a subclass of `numpy.ndarray`), `None`, or anything else. -/
inductive PyObject
  | ndarray (a : PyArrayObject)
  | matrix (a : PyArrayObject)
  | none
  | other
  deriving DecidableEq, Repr

/-- The array behind a Python object when `PyArray_Check` holds for it. -/
def PyObject.asArray : PyObject → Option PyArrayObject
  | .ndarray a => some a
  | .matrix a => some a
  | .none => Option.none
  | .other => Option.none

/-- The macro `PyArray_Check`. -/
def PyArray_Check (o : PyObject) : Bool := o.asArray.isSome

/-! ## From Python: the convertibility predicate -/

/-- The function `EigenFromPy<MatType>::isScalarConvertible`, for `MatType::Scalar = S`. -/
def EigenFromPy.isScalarConvertible (S : CScalar) (np_type : Int) : Bool :=
  if NumpyEquivalentType.type_code S == np_type then true
  else if np_type == NPY_INT then FromTypeToType .int S
  else if np_type == NPY_LONG then FromTypeToType .long S
  else if np_type == NPY_FLOAT then FromTypeToType .float S
  else if np_type == NPY_DOUBLE then FromTypeToType .double S
  else false

/-- The test that ends `convertible`: with `NPY_1_8_API_VERSION` defined (`npy18`) the
array passes when its flags word is not zero, otherwise when its `NPY_ALIGNED` bit is
set. -/
def EigenFromPy.flagsOk (npy18 : Bool) (a : PyArrayObject) : Bool :=
  if npy18 then a.flags != 0 else a.flags &&& NPY_ALIGNED != 0

/-- The vector branch of `convertible` (`MatType::IsVectorAtCompileTime` is true): the
`switch` on the rank. -/
def EigenFromPy.convertibleVector (npy18 : Bool) (M : MatType) (a : PyArrayObject) : Bool :=
  match a.dims with
  | [] => false
  | [_] => true
  | [d0, d1] =>
    if d0 == 1 && d1 == 1 then true
    else if decide (d0 > 1) && decide (d1 > 1) then false
    else if (d0 == 1 && M.ColsAtCompileTime == 1) || (d1 == 1 && M.RowsAtCompileTime == 1) then
      false
    else EigenFromPy.flagsOk npy18 a
  | _ => false

/-- The matrix branch of `convertible` (`MatType::IsVectorAtCompileTime` is false). -/
def EigenFromPy.convertibleMatrix (npy18 : Bool) (M : MatType) (a : PyArrayObject) : Bool :=
  if PyArray_NDIM a != 2 &&
      (PyArray_NDIM a != 1 || !M.IsVectorAtCompileTime) then false
  else
    match a.dims with
    | [d0, d1] =>
      let R := toInt32 d0
      let C := toInt32 d1
      if M.RowsAtCompileTime != R && M.RowsAtCompileTime != Dynamic then false
      else if M.ColsAtCompileTime != C && M.ColsAtCompileTime != Dynamic then false
      else EigenFromPy.flagsOk npy18 a
    | _ => EigenFromPy.flagsOk npy18 a

/-- The function `EigenFromPy<MatType>::convertible`: `true` when it returns the array,
`false` when it returns 0. -/
def EigenFromPy.convertible (npy18 : Bool) (M : MatType) (o : PyObject) : Bool :=
  match o.asArray with
  | Option.none => false
  | some a =>
    if !EigenFromPy.isScalarConvertible M.Scalar (GET_PY_ARRAY_TYPE a) then false
    else if M.IsVectorAtCompileTime then EigenFromPy.convertibleVector npy18 M a
    else EigenFromPy.convertibleMatrix npy18 M a

/-! ## Faults -/

/-- The ways in which a step of the embedded code stops instead of returning: an `assert`
that fails in a build without `NDEBUG`, a read of `PyArray_DIMS` at an index that is not
below the rank, a Python exception, a null array pointer, and an Eigen assignment between
shapes that do not fit. -/
inductive Fault
  | assertion
  | dimsOutOfRange
  | pythonError
  | nullPointer
  | sizeMismatch
  deriving DecidableEq, Repr

/-- The read `PyArray_DIMS(pyArray)[i]`, which is defined for `i` below the rank only. -/
def PyArray_DIMS (a : PyArrayObject) (i : Nat) : Except Fault Nat :=
  match a.dims.get? i with
  | some d => .ok d
  | Option.none => .error .dimsOutOfRange

/-! ## The process-wide numpy flavor -/

/-- The enumeration `NP_TYPE`. -/
inductive NP_TYPE
  | DEFAULT_TYPE
  | MATRIX_TYPE
  | ARRAY_TYPE
  deriving DecidableEq, Repr

/-- The Python type objects that the flavor code tells apart: `numpy.ndarray`,
`numpy.matrix` (a subclass of `numpy.ndarray`), a further subclass of either, and any
type unrelated to both. -/
inductive PyTypeObject
  | ndarray
  | matrix
  | ndarraySubclass
  | matrixSubclass
  | unrelated
  deriving DecidableEq, Repr

/-- The C API function `PyType_IsSubtype a b`: `a` is `b` or derives from it. -/
def PyType_IsSubtype : PyTypeObject → PyTypeObject → Bool
  | .matrix, .ndarray => true
  | .ndarraySubclass, .ndarray => true
  | .matrixSubclass, .ndarray => true
  | .matrixSubclass, .matrix => true
  | a, b => decide (a = b)

/-- The handle `NumpyMatrixObject` (and `NumpyMatrixType`): `numpy.matrix`. -/
def NumpyMatrixObject : PyTypeObject := .matrix

/-- The handle `NumpyArrayObject` (and `NumpyArrayType`): `numpy.ndarray`. -/
def NumpyArrayObject : PyTypeObject := .ndarray

/-- The mutable field of the singleton `NumpyType`; its other fields are the constant
handles `NumpyMatrixObject` and `NumpyArrayObject`. -/
structure NumpyType where
  CurrentNumpyType : PyTypeObject
  deriving DecidableEq, Repr

/-- The process-wide state: `inst` is the function-local static of `getInstance` (absent
until its first use), `np_type` is the function-local static of `getType`, and `warnings`
counts the deprecation warnings written to `std::cerr`. -/
structure Process where
  inst : Option NumpyType
  np_type : NP_TYPE
  warnings : Nat
  deriving DecidableEq, Repr

/-- The state at process start: no instance yet, `np_type` zero-initialised. -/
def Process.init : Process := ⟨Option.none, .DEFAULT_TYPE, 0⟩

/-- The function `NumpyType::getType`, read. -/
def NumpyType.getType (p : Process) : NP_TYPE := p.np_type

/-- The function `NumpyType::getInstance`: the first use runs the constructor, which sets
`CurrentNumpyType = NumpyMatrixObject` and `getType() = DEFAULT_TYPE`. -/
def NumpyType.getInstance (p : Process) : NumpyType × Process :=
  match p.inst with
  | some i => (i, p)
  | Option.none =>
    (⟨NumpyMatrixObject⟩, { p with inst := some ⟨NumpyMatrixObject⟩, np_type := .DEFAULT_TYPE })

/-- The function `NumpyType::switchToNumpyArray`. -/
def NumpyType.switchToNumpyArray (p : Process) : Process :=
  let p1 := (NumpyType.getInstance p).2
  { p1 with inst := some ⟨NumpyArrayObject⟩, np_type := .ARRAY_TYPE }

/-- The function `NumpyType::switchToNumpyMatrix`. -/
def NumpyType.switchToNumpyMatrix (p : Process) : Process :=
  let p1 := (NumpyType.getInstance p).2
  { p1 with inst := some ⟨NumpyMatrixObject⟩, np_type := .MATRIX_TYPE }

/-- The argument of `setNumpyType`: a type object, or an instance with its `ob_type`. -/
inductive BpObject
  | typeObject (t : PyTypeObject)
  | instanceOf (ob_type : PyTypeObject)
  deriving DecidableEq, Repr

/-- The type that `setNumpyType` tests: the object itself when `PyType_Check` holds for
it, its `ob_type` otherwise. -/
def BpObject.obj_type : BpObject → PyTypeObject
  | .typeObject t => t
  | .instanceOf t => t

/-- The function `NumpyType::setNumpyType`. -/
def NumpyType.setNumpyType (obj : BpObject) (p : Process) : Process :=
  let p1 := (NumpyType.getInstance p).2
  if PyType_IsSubtype obj.obj_type NumpyMatrixObject then NumpyType.switchToNumpyMatrix p1
  else if PyType_IsSubtype obj.obj_type NumpyArrayObject then NumpyType.switchToNumpyArray p1
  else p1

/-- The call `numpy.matrix(obj, None, copy)` of numpy: an array of rank 2 keeps its shape,
one of rank 1 becomes a single row, one of rank 0 becomes 1x1, a higher rank raises; the
result does not own its buffer when `copy` is false. -/
def numpy_matrix (o : PyObject) (copy : Bool) : Except Fault PyObject :=
  match o.asArray with
  | Option.none => .error .pythonError
  | some a =>
    let flags := if copy then NPY_CARRAY ||| NPY_OWNDATA else a.flags &&& 0xFFFFFFFB
    match a.dims with
    | [] => .ok (.matrix { a with dims := [1, 1], flags := flags })
    | [n] => .ok (.matrix { a with dims := [1, n], flags := flags })
    | [_, _] => .ok (.matrix { a with flags := flags })
    | _ => .error .pythonError

/-- The member function `NumpyType::make`, called on `getInstance()`: the object it
returns (or the fault that stops it) and the state it leaves. The warning and the switch
to the matrix flavor come before the call that builds the result. -/
def NumpyType.make (p : Process) (pyObj : PyObject) (copy : Bool) :
    Except Fault PyObject × Process :=
  let p0 := (NumpyType.getInstance p).2
  let p1 :=
    if NumpyType.getType p0 = .DEFAULT_TYPE then
      NumpyType.switchToNumpyMatrix { p0 with warnings := p0.warnings + 1 }
    else p0
  let cur := (NumpyType.getInstance p1).1.CurrentNumpyType
  if PyType_IsSubtype cur NumpyMatrixObject then (numpy_matrix pyObj copy, p1)
  else if PyType_IsSubtype cur NumpyArrayObject then (.ok pyObj, p1)
  else (.ok .none, p1)

/-! ## Matrix values and views over arrays -/

/-- A matrix value: its run-time sizes and its coefficients in row-major order. -/
structure EigenMatrix where
  rows : Nat
  cols : Nat
  coeffs : List Coeff
  deriving DecidableEq, Repr

/-- The storage that the from-Python construction fills: after the placement `new` it
holds a matrix of the given sizes whose coefficients were never assigned, after an
assignment it holds a value. -/
inductive Storage
  | uninitialized (rows cols : Int)
  | value (m : EigenMatrix)
  deriving DecidableEq, Repr

/-- Eigen's rule for the sizes of an object of type `M`: a compile-time size that is not
`Dynamic` is the run-time size. -/
def MatType.fits (M : MatType) (rows cols : Nat) : Bool :=
  (M.RowsAtCompileTime == Dynamic || M.RowsAtCompileTime == (rows : Int)) &&
  (M.ColsAtCompileTime == Dynamic || M.ColsAtCompileTime == (cols : Int))

/-- Modelled from the spec: `MapNumpy<MatType,InputScalar>::map` of `eigenpy/map.hpp`,
which is not among the sources. It gives the sizes of the strided view through which the
elements of the array are read and written in place (spec 4.3). A rank-2 array seen by a
matrix type has the sizes of the array. For a vector type the view is one-dimensional:
its length is the length of a rank-1 array, or the number of elements of a rank-2 array
(the length of the other axis when one axis has length 1), and it lies along the axis
that the type leaves free. A rank-1 array seen by a matrix type is a view with one axis
of length 1. No view exists for another rank. -/
def MapNumpy.map (M : MatType) (a : PyArrayObject) : Option (Nat × Nat) :=
  if M.IsVectorAtCompileTime then
    match a.dims with
    | [n] => if M.ColsAtCompileTime == 1 then some (n, 1) else some (1, n)
    | [d0, d1] => if M.ColsAtCompileTime == 1 then some (d0 * d1, 1) else some (1, d0 * d1)
    | _ => Option.none
  else
    match a.dims with
    | [n] => some (n, 1)
    | [d0, d1] => some (d0, d1)
    | _ => Option.none

/-- The assignment `MapNumpy<MatType,T>::map(pyArray) = expr` of `copy`: the coefficients
of an expression of sizes `rows` x `cols` are written through the view, whose sizes must
be those of the expression. -/
def assignToMap (M : MatType) (a : PyArrayObject) (rows cols : Nat) (coeffs : List Coeff) :
    Except Fault PyArrayObject :=
  match MapNumpy.map M a with
  | Option.none => .error .sizeMismatch
  | some (r, c) =>
    if r == rows && c == cols then .ok { a with data := coeffs } else .error .sizeMismatch

/-- The assignment `*mat_ptr = MapNumpy<MatType,T>::map(pyArray)...` of `allocate`: the
matrix takes the sizes of the view, which its type must allow, and the elements read
through the view, each converted by `conv`. -/
def assignFromMap (M : MatType) (a : PyArrayObject) (conv : Coeff → Coeff) :
    Except Fault Storage :=
  match MapNumpy.map M a with
  | Option.none => .error .sizeMismatch
  | some (r, c) =>
    if M.fits r c then .ok (.value ⟨r, c, a.data.map conv⟩) else .error .sizeMismatch

/-! ## From Python: construction -/

/-- The function `initEigenObject<MatType>::run`, both specialisations: the sizes given
to the constructor of `MatType`. `ndebug` tells whether `NDEBUG` is defined, in which
case the `assert` is compiled out. The one-argument constructor of a vector type makes a
vector of that length along the axis the type leaves free. -/
def initEigenObject.run (ndebug : Bool) (M : MatType) (a : PyArrayObject) :
    Except Fault Storage :=
  if M.IsVectorAtCompileTime then
    if PyArray_NDIM a == 1 then do
      let d ← PyArray_DIMS a 0
      let rows_or_cols := toInt32 d
      if M.ColsAtCompileTime == 1 then pure (.uninitialized rows_or_cols 1)
      else pure (.uninitialized 1 rows_or_cols)
    else do
      let d0 ← PyArray_DIMS a 0
      let d1 ← PyArray_DIMS a 1
      pure (.uninitialized (toInt32 d0) (toInt32 d1))
  else
    if !ndebug && PyArray_NDIM a != 2 then .error .assertion
    else do
      let d0 ← PyArray_DIMS a 0
      let d1 ← PyArray_DIMS a 1
      pure (.uninitialized (toInt32 d0) (toInt32 d1))

/-- The function `EigenObjectAllocator<MatType>::allocate`. `cast s t` is the conversion
`static_cast` from scalar type `s` to scalar type `t` that Eigen's `cast<Scalar>()`
applies to each coefficient. When no branch is taken the storage is returned as
`initEigenObject::run` left it. -/
def EigenObjectAllocator.allocate (ndebug : Bool) (cast : CScalar → CScalar → Coeff → Coeff)
    (M : MatType) (pyArray : PyArrayObject) : Except Fault Storage := do
  let mat_ptr ← initEigenObject.run ndebug M pyArray
  if NumpyEquivalentType.type_code M.Scalar == GET_PY_ARRAY_TYPE pyArray then
    assignFromMap M pyArray id
  else if GET_PY_ARRAY_TYPE pyArray == NPY_INT then
    assignFromMap M pyArray (cast .int M.Scalar)
  else if GET_PY_ARRAY_TYPE pyArray == NPY_LONG then
    assignFromMap M pyArray (cast .long M.Scalar)
  else if GET_PY_ARRAY_TYPE pyArray == NPY_FLOAT then
    assignFromMap M pyArray (cast .float M.Scalar)
  else if GET_PY_ARRAY_TYPE pyArray == NPY_DOUBLE then
    assignFromMap M pyArray (cast .double M.Scalar)
  else pure mat_ptr

/-- The `assert` that opens `EigenFromPy<MatType>::construct`: it reads
`PyArray_DIMS(pyArray)[0]` and `PyArray_DIMS(pyArray)[1]` and requires both to be below
`INT_MAX`. -/
def EigenFromPy.constructAssert (pyArray : PyArrayObject) : Except Fault Unit :=
  match PyArray_DIMS pyArray 0 with
  | .error e => .error e
  | .ok d0 =>
    match PyArray_DIMS pyArray 1 with
    | .error e => .error e
    | .ok d1 =>
      if (d0 : Int) < INT_MAX ∧ (d1 : Int) < INT_MAX then .ok () else .error .assertion

/-- The function `EigenFromPy<MatType>::construct`: the content of the storage when it
returns. The `assert` is compiled out under `NDEBUG`. -/
def EigenFromPy.construct (ndebug : Bool) (cast : CScalar → CScalar → Coeff → Coeff)
    (M : MatType) (pyObj : PyObject) : Except Fault Storage :=
  match pyObj.asArray with
  | Option.none => .error .nullPointer
  | some pyArray =>
    if ndebug then EigenObjectAllocator.allocate ndebug cast M pyArray
    else
      match EigenFromPy.constructAssert pyArray with
      | .error e => .error e
      | .ok _ => EigenObjectAllocator.allocate ndebug cast M pyArray

/-! ## To Python -/

/-- The function `EigenObjectAllocator<MatType>::copy`: the array after the copy. When no
branch is taken the array is returned unchanged. -/
def EigenObjectAllocator.copy (cast : CScalar → CScalar → Coeff → Coeff) (M : MatType)
    (mat : EigenMatrix) (pyArray : PyArrayObject) : Except Fault PyArrayObject :=
  if NumpyEquivalentType.type_code M.Scalar == GET_PY_ARRAY_TYPE pyArray then
    assignToMap M pyArray mat.rows mat.cols mat.coeffs
  else if GET_PY_ARRAY_TYPE pyArray == NPY_INT then
    assignToMap M pyArray mat.rows mat.cols (mat.coeffs.map (cast M.Scalar .int))
  else if GET_PY_ARRAY_TYPE pyArray == NPY_LONG then
    assignToMap M pyArray mat.rows mat.cols (mat.coeffs.map (cast M.Scalar .long))
  else if GET_PY_ARRAY_TYPE pyArray == NPY_FLOAT then
    assignToMap M pyArray mat.rows mat.cols (mat.coeffs.map (cast M.Scalar .float))
  else if GET_PY_ARRAY_TYPE pyArray == NPY_DOUBLE then
    assignToMap M pyArray mat.rows mat.cols (mat.coeffs.map (cast M.Scalar .double))
  else .ok pyArray

/-- The macro `PyArray_SimpleNew` of numpy: a new aligned C-contiguous array that owns
its buffer, of the given shape and type number; a negative size raises and gives a null
pointer. The content of the new buffer is unspecified; it is zero here. -/
def PyArray_SimpleNew (shape : List Int) (typenum : Int) : Except Fault PyArrayObject :=
  if shape.any (fun d => decide (d < 0)) then .error .nullPointer
  else
    let dims := shape.map Int.toNat
    .ok ⟨typenum, dims, NPY_CARRAY ||| NPY_OWNDATA, List.replicate dims.prod 0⟩

/-- The shape of the array that `EigenToPy<MatType>::convert` allocates for a matrix of
`R` rows and `C` columns when the flavor is `np_type`. -/
def EigenToPy.shape (np_type : NP_TYPE) (R C : Int) : List Int :=
  if C == 1 && np_type == NP_TYPE.ARRAY_TYPE then [R] else [R, C]

/-- The array that `EigenToPy<MatType>::convert` allocates and fills, before it is
wrapped. The `assert` on the sizes is compiled out under `NDEBUG`. -/
def EigenToPy.convertArray (ndebug : Bool) (cast : CScalar → CScalar → Coeff → Coeff)
    (M : MatType) (p : Process) (mat : EigenMatrix) : Except Fault PyArrayObject :=
  if ndebug = false ∧ ¬ ((mat.rows : Int) < INT_MAX ∧ (mat.cols : Int) < INT_MAX) then
    .error .assertion
  else
    let R := toInt32 mat.rows
    let C := toInt32 mat.cols
    match PyArray_SimpleNew (EigenToPy.shape (NumpyType.getType p) R C)
        (NumpyEquivalentType.type_code M.Scalar) with
    | .error e => .error e
    | .ok pyArray => EigenObjectAllocator.copy cast M mat pyArray

/-- The function `EigenToPy<MatType>::convert`: the Python object it returns (or the
fault that stops it) and the state it leaves. -/
def EigenToPy.convert (ndebug : Bool) (cast : CScalar → CScalar → Coeff → Coeff)
    (M : MatType) (p : Process) (mat : EigenMatrix) : Except Fault PyObject × Process :=
  match EigenToPy.convertArray ndebug cast M p mat with
  | .error e => (.error e, p)
  | .ok pyArray => NumpyType.make p (.ndarray pyArray) false

/-! ## Sequences of flavor operations -/

/-- The operations on the flavor state: an outbound conversion (which ends in `make`) and
the three selectors. -/
inductive Op
  | make (pyObj : PyObject) (copy : Bool)
  | switchToNumpyArray
  | switchToNumpyMatrix
  | setNumpyType (obj : BpObject)
  deriving DecidableEq, Repr

/-- The state that one operation leaves. -/
def Op.apply : Op → Process → Process
  | .make pyObj copy, p => (NumpyType.make p pyObj copy).2
  | .switchToNumpyArray, p => NumpyType.switchToNumpyArray p
  | .switchToNumpyMatrix, p => NumpyType.switchToNumpyMatrix p
  | .setNumpyType obj, p => NumpyType.setNumpyType obj p

/-- The state after a sequence of operations, the first of the list first. -/
def run (ops : List Op) (p : Process) : Process := ops.foldl (fun q op => op.apply q) p

/-- The states that a process can be in: those that a sequence of operations reaches
from the state at process start. -/
def Reachable (p : Process) : Prop := ∃ ops : List Op, run ops Process.init = p

/-- The invariant of the flavor state: before the instance exists the flavor is
`DEFAULT_TYPE`; afterwards `CurrentNumpyType` is the ndarray handle when the flavor is
`ARRAY_TYPE` and the matrix handle otherwise. -/
def Process.Consistent (p : Process) : Prop :=
  match p.inst with
  | Option.none => p.np_type = .DEFAULT_TYPE
  | some i =>
    (p.np_type = .ARRAY_TYPE ∧ i.CurrentNumpyType = NumpyArrayObject) ∨
    (p.np_type ≠ .ARRAY_TYPE ∧ i.CurrentNumpyType = NumpyMatrixObject)

/-- Whether an operation selects a flavor explicitly: the two switches always do,
`setNumpyType` does when the type it is given derives from one of the two array types. -/
def Op.selects : Op → Bool
  | .make _ _ => false
  | .switchToNumpyArray => true
  | .switchToNumpyMatrix => true
  | .setNumpyType obj =>
    PyType_IsSubtype obj.obj_type NumpyMatrixObject || PyType_IsSubtype obj.obj_type NumpyArrayObject

/-- Whether an operation is an outbound conversion. -/
def Op.isMake : Op → Bool
  | .make _ _ => true
  | _ => false

/-! ## References to arrays -/

/-- An `eigenpy::Ref<MatType>` built over an array: the sizes of the view, the scalar
type as which the buffer is read, and the array whose buffer it aliases. -/
structure RefView where
  rows : Nat
  cols : Nat
  scalar : CScalar
  buffer : PyArrayObject
  deriving DecidableEq, Repr

/-- The function `EigenObjectAllocator<eigenpy::Ref<MatType>>::allocate`: the reference
built in the storage, a view of scalar type `MatType::Scalar` over the array. -/
def EigenObjectAllocator.Ref.allocate (M : MatType) (pyArray : PyArrayObject) :
    Except Fault RefView :=
  match MapNumpy.map M pyArray with
  | Option.none => .error .sizeMismatch
  | some (r, c) => .ok ⟨r, c, M.Scalar, pyArray⟩

/-! ## Registration -/

/-- The C++ types that key the converter registry (`bp::type_id`): a matrix type, its
base `Eigen::MatrixBase<MatType>`, and `eigenpy::Ref<MatType>`. -/
inductive TypeId
  | plain (M : MatType)
  | matrixBase (M : MatType)
  | ref (M : MatType)
  deriving DecidableEq, Repr

/-- An entry of the from-Python chain of the registry: `fns` names the instance of
`EigenFromPy` whose `convertible` and `construct` were pushed, `key` the type they were
pushed for. -/
structure FromPyEntry where
  fns : TypeId
  key : TypeId
  deriving DecidableEq, Repr

/-- The converter registry of the binding layer: for each type at most one to-Python
converter (`key`, the `T` of `EigenToPy<T>`), and the from-Python entries in the order
in which they were pushed. -/
structure Registry where
  to_python : List (TypeId × TypeId)
  from_python : List FromPyEntry
  deriving DecidableEq, Repr

/-- The function `bp::converter::registry::push_back`. -/
def Registry.push_back (r : Registry) (e : FromPyEntry) : Registry :=
  { r with from_python := r.from_python ++ [e] }

/-- The constructor of `bp::to_python_converter<T,EigenToPy<T>>`: the to-Python slot of
`T` is set to `EigenToPy<T>::convert`. -/
def Registry.to_python_converter (r : Registry) (T : TypeId) : Registry :=
  { r with to_python := (T, T) :: r.to_python.filter (fun e => e.1 != T) }

/-- The native types that `enableEigenPySpecific` is instantiated with: a matrix type or
`eigenpy::Ref` of one. -/
inductive NativeType
  | mat (M : MatType)
  | ref (M : MatType)
  deriving DecidableEq, Repr

/-- The key `bp::type_id<T>()` of a native type. -/
def NativeType.type_id : NativeType → TypeId
  | .mat M => .plain M
  | .ref M => .ref M

/-- Modelled from the spec: `check_registration<T>` of `eigenpy/registration.hpp`, which
is not among the sources. It is the "already registered" flag keyed by the identity of
the native type (spec 3, ConverterRegistration): true when the registry holds a
to-dynamic converter for `T`. -/
def check_registration (T : NativeType) (r : Registry) : Bool :=
  r.to_python.any (fun e => e.1 == T.type_id)

/-- The function `EigenFromPy<X>::registration`, for the primary template (`X` a matrix
type) and for the specialisation on `Eigen::MatrixBase<MatType>`. -/
def EigenFromPy.registration (X : TypeId) (r : Registry) : Registry :=
  r.push_back ⟨X, X⟩

/-- The function `EigenFromPyConverter<T>::registration`: the primary template pushes
the converters of `T` and of `Eigen::MatrixBase<T>`; the specialisation on
`eigenpy::Ref<MatType>` pushes `EigenFromPy<MatType>::convertible` and
`EigenFromPy<MatType>::construct` for `bp::type_id<MatType>()`. -/
def EigenFromPyConverter.registration (T : NativeType) (r : Registry) : Registry :=
  match T with
  | .mat M => EigenFromPy.registration (.matrixBase M) (EigenFromPy.registration (.plain M) r)
  | .ref M => r.push_back ⟨.plain M, .plain M⟩

/-- The function `enableEigenPySpecific<T>`; the import of numpy that opens it is not
modelled. -/
def enableEigenPySpecific (T : NativeType) (r : Registry) : Registry :=
  if check_registration T r then r
  else EigenFromPyConverter.registration T (r.to_python_converter T.type_id)

/-- The matrix type whose `convertible` and `construct` an instance of `EigenFromPy`
runs: `EigenFromPy<Eigen::MatrixBase<MatType>>` forwards to `EigenFromPy<MatType>`, and
`eigenpy::Ref<MatType>` has the scalar and the compile-time sizes of `MatType`. -/
def TypeId.matType : TypeId → MatType
  | .plain M => M
  | .matrixBase M => M
  | .ref M => M

/-- The convertibility predicate of a from-Python entry. -/
def FromPyEntry.convertible (npy18 : Bool) (e : FromPyEntry) (o : PyObject) : Bool :=
  EigenFromPy.convertible npy18 e.fns.matType o

/-- The construction function of a from-Python entry: `EigenFromPy<X>::construct` of the
instance that the entry names, which for `Eigen::MatrixBase<MatType>` forwards to
`EigenFromPy<MatType>::construct`. -/
def FromPyEntry.construct (ndebug : Bool) (cast : CScalar → CScalar → Coeff → Coeff)
    (e : FromPyEntry) (o : PyObject) : Except Fault Storage :=
  EigenFromPy.construct ndebug cast e.fns.matType o

/-! ## Concrete types and states -/

/-- Eigen's `MatrixXd`: `Matrix<double,Dynamic,Dynamic>`. -/
def MatrixXd : MatType := ⟨.double, Dynamic, Dynamic⟩

/-- Eigen's `VectorXd`: `Matrix<double,Dynamic,1>`. -/
def VectorXd : MatType := ⟨.double, Dynamic, 1⟩

/-- Eigen's `RowVectorXd`: `Matrix<double,1,Dynamic>`. -/
def RowVectorXd : MatType := ⟨.double, 1, Dynamic⟩

/-- The state after `switchToNumpyArray` at process start. -/
def Process.array : Process := NumpyType.switchToNumpyArray Process.init

/-- A conversion between scalar types that keeps the representing integer. -/
def castKeep : CScalar → CScalar → Coeff → Coeff := fun _ _ x => x

/-- Eigen's `Vector3d`: `Matrix<double,3,1>`. -/
def Vector3d : MatType := ⟨.double, 3, 1⟩

/-- Eigen's `Matrix2Xd`: `Matrix<double,2,Dynamic>`. -/
def Matrix2Xd : MatType := ⟨.double, 2, Dynamic⟩

/-! ## Lemmas shared by the theorems -/

/-- The conversion to `int` keeps a size below `2^31`. -/
theorem toInt32_of_lt (n : Nat) (h : (n : Int) ≤ INT_MAX) : toInt32 (n : Int) = (n : Int) := by
  unfold toInt32
  unfold INT_MAX at h
  omega

/-- A flags word with the `NPY_ALIGNED` bit passes the final test of `convertible` in
both build variants. -/
theorem flagsOk_of_aligned (npy18 : Bool) (a : PyArrayObject)
    (h : a.flags &&& NPY_ALIGNED ≠ 0) : EigenFromPy.flagsOk npy18 a = true := by
  unfold EigenFromPy.flagsOk
  cases npy18
  · simpa using h
  · have h0 : a.flags ≠ 0 := by
      intro h0
      apply h
      rw [h0]
      exact Nat.zero_and _
    simpa using h0

/-- The view over a freshly allocated array has the sizes of the matrix it was allocated
for. -/
theorem MapNumpy.map_of_fits (M : MatType) (rows cols : Nat)
    (hfit : M.fits rows cols = true) (t : Int) (f : Nat) (d : List Coeff) :
    (cols = 1 → MapNumpy.map M ⟨t, [rows], f, d⟩ = some (rows, cols)) ∧
    MapNumpy.map M ⟨t, [rows, cols], f, d⟩ = some (rows, cols) := by
  obtain ⟨S, R, C⟩ := M
  simp only [MatType.fits, Bool.and_eq_true, Bool.or_eq_true, beq_iff_eq] at hfit
  obtain ⟨hR, hC⟩ := hfit
  simp only [MapNumpy.map, MatType.IsVectorAtCompileTime]
  by_cases hR1 : R = 1 <;> by_cases hC1 : C = 1
  · subst hR1 hC1
    simp only [Dynamic] at hR hC
    have hr : rows = 1 := by omega
    have hc : cols = 1 := by omega
    subst hr hc
    simp
  · subst hR1
    simp only [Dynamic] at hR
    have hr : rows = 1 := by omega
    subst hr
    constructor
    · intro hc
      subst hc
      simp [hC1]
    · simp [hC1]
  · subst hC1
    simp only [Dynamic] at hC
    have hc : cols = 1 := by omega
    subst hc
    simp [hR1]
  · constructor
    · intro hc
      subst hc
      simp [hR1, hC1]
    · simp [hR1, hC1]

/-- The array that the outbound conversion allocates and fills, for a matrix whose sizes
fit its type and are below `INT_MAX`. -/
theorem EigenToPy.convertArray_ok (ndebug : Bool) (cast : CScalar → CScalar → Coeff → Coeff)
    (M : MatType) (p : Process) (mat : EigenMatrix)
    (hfit : M.fits mat.rows mat.cols = true)
    (hr : (mat.rows : Int) < INT_MAX) (hc : (mat.cols : Int) < INT_MAX) :
    EigenToPy.convertArray ndebug cast M p mat =
      .ok ⟨NumpyEquivalentType.type_code M.Scalar,
        if mat.cols = 1 ∧ NumpyType.getType p = .ARRAY_TYPE then [mat.rows]
        else [mat.rows, mat.cols],
        NPY_CARRAY ||| NPY_OWNDATA, mat.coeffs⟩ := by
  have h0 : toInt32 (mat.rows : Int) = (mat.rows : Int) := toInt32_of_lt _ (le_of_lt hr)
  have h1 : toInt32 (mat.cols : Int) = (mat.cols : Int) := toInt32_of_lt _ (le_of_lt hc)
  have hn0 : ¬ ((mat.rows : Int) < 0) := by omega
  have hn1 : ¬ ((mat.cols : Int) < 0) := by omega
  have hm1 := fun t f d => (MapNumpy.map_of_fits M mat.rows mat.cols hfit t f d).1
  have hm2 := fun t f d => (MapNumpy.map_of_fits M mat.rows mat.cols hfit t f d).2
  unfold EigenToPy.convertArray
  rw [if_neg (fun h => h.2 ⟨hr, hc⟩)]
  simp only [h0, h1]
  by_cases hx : mat.cols = 1 ∧ NumpyType.getType p = .ARRAY_TYPE
  · obtain ⟨hx1, hx2⟩ := hx
    have hm1' := fun t f d => hm1 t f d hx1
    simp [hx1, hx2, hn0, EigenToPy.shape, PyArray_SimpleNew, EigenObjectAllocator.copy,
      GET_PY_ARRAY_TYPE, assignToMap, hm1', bind, Except.bind, pure, Except.pure]
  · have hx' : ((mat.cols : Int) == 1 && NumpyType.getType p == NP_TYPE.ARRAY_TYPE) = false := by
      rw [Bool.eq_false_iff]
      intro h
      apply hx
      simp only [Bool.and_eq_true, beq_iff_eq] at h
      exact ⟨by exact_mod_cast h.1, h.2⟩
    simp [hx, hx', hn0, hn1, EigenToPy.shape, PyArray_SimpleNew, EigenObjectAllocator.copy,
      GET_PY_ARRAY_TYPE, assignToMap, hm2, bind, Except.bind, pure, Except.pure]

/-- An aligned array of the type's own kind whose shape is the shape of a matrix of the
type (rank 2, or rank 1 for a single column of a vector type) is convertible. -/
theorem EigenFromPy.convertible_of_fits (npy18 : Bool) (M : MatType) (o : PyObject)
    (a : PyArrayObject) (rows cols : Nat)
    (ho : o.asArray = some a)
    (hkind : a.type_num = NumpyEquivalentType.type_code M.Scalar)
    (haligned : a.flags &&& NPY_ALIGNED ≠ 0)
    (hfit : M.fits rows cols = true)
    (hr : (rows : Int) < INT_MAX) (hc : (cols : Int) < INT_MAX)
    (hdims : a.dims = [rows, cols] ∨ (a.dims = [rows] ∧ M.IsVectorAtCompileTime = true)) :
    EigenFromPy.convertible npy18 M o = true := by
  have hfl := flagsOk_of_aligned npy18 a haligned
  have h0 : toInt32 (rows : Int) = (rows : Int) := toInt32_of_lt _ (le_of_lt hr)
  have h1 : toInt32 (cols : Int) = (cols : Int) := toInt32_of_lt _ (le_of_lt hc)
  have hk : EigenFromPy.isScalarConvertible M.Scalar a.type_num = true := by
    simp [EigenFromPy.isScalarConvertible, hkind]
  obtain ⟨S, R, C⟩ := M
  simp only [MatType.fits, Bool.and_eq_true, Bool.or_eq_true, beq_iff_eq] at hfit
  obtain ⟨hR, hC⟩ := hfit
  simp only [EigenFromPy.convertible, ho, GET_PY_ARRAY_TYPE, hk]
  rcases hdims with hd | ⟨hd, hv⟩
  · by_cases hv : MatType.IsVectorAtCompileTime ⟨S, R, C⟩ = true
    · simp only [hv, EigenFromPy.convertibleVector, hd, hfl]
      simp only [MatType.IsVectorAtCompileTime, Bool.or_eq_true, beq_iff_eq] at hv
      simp only [Dynamic] at hR hC
      by_cases hr1 : rows = 1 <;> by_cases hc1 : cols = 1 <;> simp [hr1, hc1]
      all_goals omega
    · simp only [hv, EigenFromPy.convertibleMatrix, PyArray_NDIM, hd, h0, h1, hfl]
      rcases hR with hR | hR <;> rcases hC with hC | hC <;> simp [hR, hC]
  · simp [hv, EigenFromPy.convertibleVector, hd]

/-- The construction from an array of the type's own kind whose shape is the shape of a
matrix of the type gives that matrix with the elements of the array; a rank-1 array is
read in a build with `NDEBUG` only. -/
theorem EigenFromPy.construct_of_fits (ndebug : Bool) (cast : CScalar → CScalar → Coeff → Coeff)
    (M : MatType) (o : PyObject) (a : PyArrayObject) (rows cols : Nat)
    (ho : o.asArray = some a)
    (hkind : a.type_num = NumpyEquivalentType.type_code M.Scalar)
    (hfit : M.fits rows cols = true)
    (hr : (rows : Int) < INT_MAX) (hc : (cols : Int) < INT_MAX)
    (hdims : a.dims = [rows, cols] ∨
      (a.dims = [rows] ∧ cols = 1 ∧ M.IsVectorAtCompileTime = true ∧ ndebug = true)) :
    EigenFromPy.construct ndebug cast M o = .ok (.value ⟨rows, cols, a.data⟩) := by
  obtain ⟨t, dims, f, d⟩ := a
  simp only at hkind hdims
  subst hkind
  have hm1 := (MapNumpy.map_of_fits M rows cols hfit (NumpyEquivalentType.type_code M.Scalar) f d).1
  have hm2 := (MapNumpy.map_of_fits M rows cols hfit (NumpyEquivalentType.type_code M.Scalar) f d).2
  rcases hdims with hd | ⟨hd, hc1, hv, hn⟩
  · subst hd
    have hal : EigenObjectAllocator.allocate ndebug cast M
        ⟨NumpyEquivalentType.type_code M.Scalar, [rows, cols], f, d⟩ =
          .ok (.value ⟨rows, cols, d⟩) := by
      simp only [EigenObjectAllocator.allocate, initEigenObject.run, PyArray_NDIM, PyArray_DIMS,
        GET_PY_ARRAY_TYPE, assignFromMap, hm2, hfit, beq_self_eq_true, if_true,
        List.map_id_fun, id_eq]
      cases ndebug <;> cases M.IsVectorAtCompileTime <;> rfl
    have hassert : EigenFromPy.constructAssert
        ⟨NumpyEquivalentType.type_code M.Scalar, [rows, cols], f, d⟩ = .ok () := by
      simp only [EigenFromPy.constructAssert, PyArray_DIMS, List.get?]
      rw [if_pos ⟨hr, hc⟩]
    simp only [EigenFromPy.construct, ho, hal, hassert]
    cases ndebug <;> rfl
  · subst hd hn
    have hal : EigenObjectAllocator.allocate true cast M
        ⟨NumpyEquivalentType.type_code M.Scalar, [rows], f, d⟩ =
          .ok (.value ⟨rows, cols, d⟩) := by
      simp only [EigenObjectAllocator.allocate, initEigenObject.run, PyArray_NDIM, PyArray_DIMS,
        GET_PY_ARRAY_TYPE, assignFromMap, hm1 hc1, hfit, hv, beq_self_eq_true, if_true,
        List.map_id_fun, id_eq]
      cases (M.ColsAtCompileTime == 1) <;> rfl
    simp only [EigenFromPy.construct, ho, hal]
    rfl

/-- An array that `convertible` accepts has one of the four kinds, and
`initEigenObject::run` returns for it. -/
theorem EigenFromPy.convertible_kind_and_init (npy18 ndebug : Bool) (M : MatType) (o : PyObject)
    (a : PyArrayObject) (ho : o.asArray = some a)
    (hacc : EigenFromPy.convertible npy18 M o = true) :
    (∃ A : CScalar, NumpyEquivalentType.type_code A = GET_PY_ARRAY_TYPE a) ∧
    (∃ s, initEigenObject.run ndebug M a = .ok s) := by
  simp only [EigenFromPy.convertible, ho] at hacc
  have hk : EigenFromPy.isScalarConvertible M.Scalar (GET_PY_ARRAY_TYPE a) = true := by
    by_contra hk
    simp [hk] at hacc
  constructor
  · by_contra hne
    have hall : ∀ A : CScalar, NumpyEquivalentType.type_code A ≠ GET_PY_ARRAY_TYPE a :=
      fun A hA => hne ⟨A, hA⟩
    have h1 := hall .int
    have h2 := hall .long
    have h3 := hall .float
    have h4 := hall .double
    have hB := hall M.Scalar
    simp only [NumpyEquivalentType.type_code] at h1 h2 h3 h4
    simp [EigenFromPy.isScalarConvertible, hB, Ne.symm h1, Ne.symm h2, Ne.symm h3,
      Ne.symm h4] at hk
  · simp only [hk, Bool.not_true, Bool.false_eq_true, if_false] at hacc
    obtain ⟨t, dims, f, d⟩ := a
    by_cases hv : M.IsVectorAtCompileTime = true
    · simp only [hv, if_true, EigenFromPy.convertibleVector] at hacc
      rcases dims with _ | ⟨d0, _ | ⟨d1, _ | ⟨d2, rest⟩⟩⟩
      · simp at hacc
      · simp only [initEigenObject.run, hv, PyArray_NDIM, PyArray_DIMS]
        cases (M.ColsAtCompileTime == 1) <;> exact ⟨_, rfl⟩
      · simp only [initEigenObject.run, hv, PyArray_NDIM, PyArray_DIMS]
        exact ⟨_, rfl⟩
      · simp at hacc
    · simp only [hv, if_false, EigenFromPy.convertibleMatrix, PyArray_NDIM] at hacc
      rcases dims with _ | ⟨d0, _ | ⟨d1, _ | ⟨d2, rest⟩⟩⟩
      · simp at hacc
      · simp [hv] at hacc
      · simp only [initEigenObject.run, hv, PyArray_NDIM, PyArray_DIMS]
        cases ndebug <;> exact ⟨_, rfl⟩
      · simp at hacc

/-- Once `initEigenObject::run` has returned, `allocate` on an array of kind `A` is the
one assignment of the branch of that kind. -/
theorem EigenObjectAllocator.allocate_eq (ndebug : Bool) (cast : CScalar → CScalar → Coeff → Coeff)
    (M : MatType) (a : PyArrayObject) (s : Storage) (A : CScalar)
    (hinit : initEigenObject.run ndebug M a = .ok s)
    (hA : NumpyEquivalentType.type_code A = GET_PY_ARRAY_TYPE a) :
    EigenObjectAllocator.allocate ndebug cast M a =
      assignFromMap M a (if A = M.Scalar then id else cast A M.Scalar) := by
  obtain ⟨S, R, C⟩ := M
  simp only [EigenObjectAllocator.allocate, hinit, ← hA, bind, Except.bind]
  cases A <;> cases S <;> rfl

/-- The copy into an array keeps its dimension sizes. -/
theorem EigenObjectAllocator.copy_dims (cast : CScalar → CScalar → Coeff → Coeff) (M : MatType)
    (mat : EigenMatrix) (a a' : PyArrayObject)
    (h : EigenObjectAllocator.copy cast M mat a = .ok a') : a'.dims = a.dims := by
  have hassign : ∀ coeffs, assignToMap M a mat.rows mat.cols coeffs = .ok a' →
      a'.dims = a.dims := by
    intro coeffs hc
    unfold assignToMap at hc
    split at hc
    · exact absurd hc (by simp)
    · split at hc
      · injection hc with hc
        rw [← hc]
      · exact absurd hc (by simp)
  unfold EigenObjectAllocator.copy at h
  split_ifs at h
  · exact hassign _ h
  · exact hassign _ h
  · exact hassign _ h
  · exact hassign _ h
  · exact hassign _ h
  · injection h with h
    rw [h]

/-- The rank of the array that the outbound conversion allocates: 1 under the array
flavor only, and 2 otherwise. -/
theorem EigenToPy.convertArray_ndim (ndebug : Bool) (cast : CScalar → CScalar → Coeff → Coeff)
    (M : MatType) (p : Process) (mat : EigenMatrix) (a0 : PyArrayObject)
    (h : EigenToPy.convertArray ndebug cast M p mat = .ok a0) :
    (PyArray_NDIM a0 = 1 ∧ NumpyType.getType p = .ARRAY_TYPE) ∨ PyArray_NDIM a0 = 2 := by
  unfold EigenToPy.convertArray at h
  split_ifs at h
  simp only at h
  split at h
  · exact absurd h (by simp)
  · rename_i pyArray hnew
    have hd := EigenObjectAllocator.copy_dims cast M mat pyArray a0 h
    unfold PyArray_SimpleNew at hnew
    split_ifs at hnew
    injection hnew with hnew
    rw [PyArray_NDIM, hd, ← hnew]
    simp only [EigenToPy.shape, List.length_map]
    by_cases hA : NumpyType.getType p = .ARRAY_TYPE
    · by_cases hC : toInt32 (mat.cols : Int) = 1
      · left
        simp [hA, hC]
      · right
        simp [hC]
    · right
      simp [hA]

/-- The call `numpy.matrix` on an array of rank at most 2 returns a matrix. -/
theorem numpy_matrix_of_rank (a : PyArrayObject) (copy : Bool) (h : PyArray_NDIM a ≤ 2) :
    ∃ a', numpy_matrix (.ndarray a) copy = .ok (.matrix a') ∧ a'.data = a.data ∧
      a'.type_num = a.type_num := by
  obtain ⟨t, dims, f, d⟩ := a
  rcases dims with _ | ⟨d0, _ | ⟨d1, _ | ⟨d2, rest⟩⟩⟩
  · exact ⟨_, rfl, rfl, rfl⟩
  · exact ⟨_, rfl, rfl, rfl⟩
  · exact ⟨_, rfl, rfl, rfl⟩
  · simp [PyArray_NDIM] at h

/-- Every operation keeps the invariant of the flavor state. -/
theorem Op.apply_consistent (op : Op) (p : Process) (h : p.Consistent) :
    (op.apply p).Consistent := by
  obtain ⟨inst, np, w⟩ := p
  cases op with
  | make pyObj copy =>
    rcases inst with _ | ⟨⟨cur⟩⟩ <;> cases np <;>
      simp_all [Process.Consistent, Op.apply, NumpyType.make, NumpyType.getInstance,
        NumpyType.getType, NumpyType.switchToNumpyMatrix, NumpyMatrixObject, NumpyArrayObject,
        PyType_IsSubtype]
  | switchToNumpyArray =>
    rcases inst with _ | ⟨⟨cur⟩⟩ <;>
      simp [Process.Consistent, Op.apply, NumpyType.switchToNumpyArray, NumpyType.getInstance]
  | switchToNumpyMatrix =>
    rcases inst with _ | ⟨⟨cur⟩⟩ <;>
      simp [Process.Consistent, Op.apply, NumpyType.switchToNumpyMatrix, NumpyType.getInstance]
  | setNumpyType obj =>
    rcases inst with _ | ⟨⟨cur⟩⟩ <;>
      simp only [Op.apply, NumpyType.setNumpyType, NumpyType.getInstance] <;>
      split_ifs <;>
      simp_all [Process.Consistent, NumpyType.switchToNumpyArray,
        NumpyType.switchToNumpyMatrix, NumpyType.getInstance]

/-- A sequence of operations keeps the invariant of the flavor state. -/
theorem run_consistent (ops : List Op) (p : Process) (h : p.Consistent) :
    (run ops p).Consistent := by
  induction ops generalizing p with
  | nil => exact h
  | cons op ops ih => exact ih (op.apply p) (Op.apply_consistent op p h)

/-- Every reachable state satisfies the invariant of the flavor state. -/
theorem Reachable.consistent {p : Process} (h : Reachable p) : p.Consistent := by
  obtain ⟨ops, rfl⟩ := h
  exact run_consistent ops Process.init rfl

/-- The state that `make` leaves, from a consistent state. -/
theorem NumpyType.make_snd (p : Process) (h : p.Consistent) (o : PyObject) (copy : Bool) :
    (NumpyType.make p o copy).2 =
      if p.np_type = .DEFAULT_TYPE then ⟨some ⟨NumpyMatrixObject⟩, .MATRIX_TYPE, p.warnings + 1⟩
      else p := by
  obtain ⟨inst, np, w⟩ := p
  rcases inst with _ | ⟨⟨cur⟩⟩ <;> cases np <;>
    simp_all [Process.Consistent, NumpyType.make, NumpyType.getInstance,
      NumpyType.getType, NumpyType.switchToNumpyMatrix, NumpyMatrixObject, NumpyArrayObject,
      PyType_IsSubtype]

/-- The object that `make` returns, from a consistent state. -/
theorem NumpyType.make_fst (p : Process) (h : p.Consistent) (o : PyObject) (copy : Bool) :
    (NumpyType.make p o copy).1 =
      if p.np_type = .ARRAY_TYPE then .ok o else numpy_matrix o copy := by
  obtain ⟨inst, np, w⟩ := p
  rcases inst with _ | ⟨⟨cur⟩⟩ <;> cases np <;>
    simp_all [Process.Consistent, NumpyType.make, NumpyType.getInstance,
      NumpyType.getType, NumpyType.switchToNumpyMatrix, NumpyMatrixObject, NumpyArrayObject,
      PyType_IsSubtype]

/-- One operation from a consistent state: what it does to the flavor and to the count
of warnings. -/
theorem Op.apply_step (op : Op) (p : Process) (h : p.Consistent) :
    ((op.apply p).warnings ≠ p.warnings →
      op.isMake = true ∧ p.np_type = .DEFAULT_TYPE ∧ (op.apply p).warnings = p.warnings + 1) ∧
    (p.np_type ≠ .DEFAULT_TYPE → (op.apply p).np_type ≠ .DEFAULT_TYPE) ∧
    ((op.apply p).np_type = .DEFAULT_TYPE → op.selects = false ∧ op.isMake = false) := by
  obtain ⟨inst, np, w⟩ := p
  cases op with
  | make pyObj copy =>
    simp only [Op.apply, NumpyType.make_snd _ h, Op.isMake, Op.selects]
    cases np <;> simp
  | switchToNumpyArray =>
    rcases inst with _ | ⟨⟨cur⟩⟩ <;>
      simp [Op.apply, NumpyType.switchToNumpyArray, NumpyType.getInstance]
  | switchToNumpyMatrix =>
    rcases inst with _ | ⟨⟨cur⟩⟩ <;>
      simp [Op.apply, NumpyType.switchToNumpyMatrix, NumpyType.getInstance]
  | setNumpyType obj =>
    rcases inst with _ | ⟨⟨cur⟩⟩ <;>
      simp only [Op.apply, NumpyType.setNumpyType, NumpyType.getInstance, Op.selects, Op.isMake] <;>
      split_ifs <;>
      simp_all [Process.Consistent, NumpyType.switchToNumpyArray,
        NumpyType.switchToNumpyMatrix, NumpyType.getInstance]

/-- Running a sequence that ends with `op` is running the sequence and then `op`. -/
theorem run_append_singleton (pre : List Op) (op : Op) (p : Process) :
    run (pre ++ [op]) p = op.apply (run pre p) := by
  simp [run, List.foldl_append]

/-- Along every sequence from process start: at most one warning, and none while the
flavor is still `DEFAULT_TYPE`. -/
theorem run_warnings (ops : List Op) :
    (run ops Process.init).warnings ≤ 1 ∧
    ((run ops Process.init).np_type = .DEFAULT_TYPE → (run ops Process.init).warnings = 0) := by
  induction ops using List.reverseRecOn with
  | nil => exact ⟨by decide, fun _ => rfl⟩
  | append_singleton pre op ih =>
    rw [run_append_singleton]
    have hc := run_consistent pre Process.init rfl
    obtain ⟨h1, h2, h3⟩ := Op.apply_step op _ hc
    by_cases hw : (op.apply (run pre Process.init)).warnings = (run pre Process.init).warnings
    · refine ⟨hw ▸ ih.1, fun hd => ?_⟩
      rw [hw]
      apply ih.2
      by_contra hnd
      exact h2 hnd hd
    · obtain ⟨_, hd, hw1⟩ := h1 hw
      have h0 := ih.2 hd
      refine ⟨by omega, fun hd' => ?_⟩
      have := (h3 hd').2
      simp_all

/-- While the flavor is still `DEFAULT_TYPE`, no operation so far selected a flavor and
none was an outbound conversion. -/
theorem run_default (pre : List Op) (h : (run pre Process.init).np_type = .DEFAULT_TYPE) :
    ∀ x ∈ pre, x.selects = false ∧ x.isMake = false := by
  induction pre using List.reverseRecOn with
  | nil => simp
  | append_singleton pre op ih =>
    rw [run_append_singleton] at h
    have hc := run_consistent pre Process.init rfl
    obtain ⟨_, h2, h3⟩ := Op.apply_step op _ hc
    have hpre : (run pre Process.init).np_type = .DEFAULT_TYPE := by
      by_contra hnd
      exact h2 hnd h
    intro x hx
    rcases List.mem_append.mp hx with hx | hx
    · exact ih hpre x hx
    · rw [List.mem_singleton.mp hx]
      exact h3 h

/-- The round trip of a matrix value whose sizes fit its type and are below `INT_MAX`,
from a reachable state, provided that a value with a single column under the array
flavor is of a vector type and the build defines `NDEBUG`. -/
theorem EigenToPy.convert_then_construct (npy18 ndebug : Bool) (cast : CScalar → CScalar → Coeff → Coeff)
    (M : MatType) (p : Process) (mat : EigenMatrix)
    (hp : Reachable p)
    (hfit : M.fits mat.rows mat.cols = true)
    (hr : (mat.rows : Int) < INT_MAX) (hc : (mat.cols : Int) < INT_MAX)
    (hx : mat.cols = 1 → NumpyType.getType p = .ARRAY_TYPE →
      M.IsVectorAtCompileTime = true ∧ ndebug = true) :
    ∃ o, (EigenToPy.convert ndebug cast M p mat).1 = .ok o ∧
      EigenFromPy.convertible npy18 M o = true ∧
      EigenFromPy.construct ndebug cast M o = .ok (.value mat) := by
  have hcons := hp.consistent
  have harr := EigenToPy.convertArray_ok ndebug cast M p mat hfit hr hc
  have hal1 : (NPY_CARRAY ||| NPY_OWNDATA) &&& NPY_ALIGNED ≠ 0 := by decide
  have hal2 : ((NPY_CARRAY ||| NPY_OWNDATA) &&& 0xFFFFFFFB) &&& NPY_ALIGNED ≠ 0 := by decide
  obtain ⟨rows, cols, coeffs⟩ := mat
  simp only at hfit hr hc hx harr
  simp only [EigenToPy.convert, harr, NumpyType.make_fst p hcons]
  by_cases hA : p.np_type = .ARRAY_TYPE
  · simp only [hA, if_true]
    refine ⟨_, rfl, ?_, ?_⟩
    · refine EigenFromPy.convertible_of_fits npy18 M _ _ rows cols rfl rfl hal1 hfit hr hc ?_
      by_cases h1 : cols = 1
      · exact Or.inr ⟨by simp [h1, NumpyType.getType, hA], (hx h1 hA).1⟩
      · exact Or.inl (by simp [h1])
    · refine EigenFromPy.construct_of_fits ndebug cast M _
        ⟨NumpyEquivalentType.type_code M.Scalar,
          if cols = 1 ∧ NumpyType.getType p = NP_TYPE.ARRAY_TYPE then [rows] else [rows, cols],
          NPY_CARRAY ||| NPY_OWNDATA, coeffs⟩ rows cols rfl rfl hfit hr hc ?_
      by_cases h1 : cols = 1
      · exact Or.inr ⟨by simp [h1, NumpyType.getType, hA], h1, hx h1 hA⟩
      · exact Or.inl (by simp [h1])
  · have hd : (if cols = 1 ∧ NumpyType.getType p = NP_TYPE.ARRAY_TYPE then [rows]
        else [rows, cols]) = [rows, cols] := by
      simp [NumpyType.getType, hA]
    simp only [hA, if_false, hd, numpy_matrix, PyObject.asArray]
    refine ⟨_, rfl, ?_, ?_⟩
    · exact EigenFromPy.convertible_of_fits npy18 M _ _ rows cols rfl rfl hal2 hfit hr hc
        (Or.inl rfl)
    · exact EigenFromPy.construct_of_fits ndebug cast M _
        ⟨NumpyEquivalentType.type_code M.Scalar, [rows, cols],
          (NPY_CARRAY ||| NPY_OWNDATA) &&& 0xFFFFFFFB, coeffs⟩ rows cols rfl rfl hfit hr hc
        (Or.inl rfl)

/-! ## C1: the round trip -/

/-- C1 (counterexample): under the array flavor the 3x1 value of the matrix type
`MatrixXd` is converted to a rank-1 array of length 3, which `convertible` rejects for
`MatrixXd` in both build variants. For `VectorXd` the same rank-1 array is accepted, but
in a build without `NDEBUG` the `assert` of `construct` reads its dimension entry at
index 1, which a rank-1 array does not have, and the construction stops there. -/
theorem round_trip_fails_single_column :
    (EigenToPy.convert true castKeep MatrixXd Process.array ⟨3, 1, [1, 2, 3]⟩).1 =
      .ok (.ndarray ⟨NPY_DOUBLE, [3], NPY_CARRAY ||| NPY_OWNDATA, [1, 2, 3]⟩) ∧
    (∀ npy18 : Bool, EigenFromPy.convertible npy18 MatrixXd
      (.ndarray ⟨NPY_DOUBLE, [3], NPY_CARRAY ||| NPY_OWNDATA, [1, 2, 3]⟩) = false) ∧
    (EigenToPy.convert false castKeep VectorXd Process.array ⟨3, 1, [1, 2, 3]⟩).1 =
      .ok (.ndarray ⟨NPY_DOUBLE, [3], NPY_CARRAY ||| NPY_OWNDATA, [1, 2, 3]⟩) ∧
    EigenFromPy.construct false castKeep VectorXd
      (.ndarray ⟨NPY_DOUBLE, [3], NPY_CARRAY ||| NPY_OWNDATA, [1, 2, 3]⟩) =
        .error .dimsOutOfRange :=
  ⟨rfl, by decide, rfl, rfl⟩

/-- C1 (amended): for every matrix type, every reachable flavor state and every matrix
value whose sizes fit the type and are below `INT_MAX`: (a) unless the value has one
column and the flavor is `ARRAY_TYPE`, the outbound conversion returns an object that
`convertible` accepts for the same type and from which `construct` builds a value with
the same rows, columns and coefficients; (b) when the value has one column and the
flavor is `ARRAY_TYPE`, the conversion returns an ndarray of rank 1 whose length is the
number of rows; `convertible` rejects it for every type that is not a vector type and
accepts it for every vector type, and for a vector type `construct` builds the same
value in a build that defines `NDEBUG`. -/
theorem round_trip (npy18 ndebug : Bool) (cast : CScalar → CScalar → Coeff → Coeff)
    (M : MatType) (p : Process) (mat : EigenMatrix)
    (hp : Reachable p)
    (hfit : M.fits mat.rows mat.cols = true)
    (hr : (mat.rows : Int) < INT_MAX) (hc : (mat.cols : Int) < INT_MAX) :
    (¬ (mat.cols = 1 ∧ NumpyType.getType p = .ARRAY_TYPE) →
      ∃ o, (EigenToPy.convert ndebug cast M p mat).1 = .ok o ∧
        EigenFromPy.convertible npy18 M o = true ∧
        EigenFromPy.construct ndebug cast M o = .ok (.value mat)) ∧
    (mat.cols = 1 ∧ NumpyType.getType p = .ARRAY_TYPE →
      ∃ a, (EigenToPy.convert ndebug cast M p mat).1 = .ok (.ndarray a) ∧
        a.dims = [mat.rows] ∧
        (M.IsVectorAtCompileTime = false →
          EigenFromPy.convertible npy18 M (.ndarray a) = false) ∧
        (M.IsVectorAtCompileTime = true →
          EigenFromPy.convertible npy18 M (.ndarray a) = true ∧
          (ndebug = true →
            EigenFromPy.construct ndebug cast M (.ndarray a) = .ok (.value mat)))) := by
  constructor
  · intro hx
    exact EigenToPy.convert_then_construct npy18 ndebug cast M p mat hp hfit hr hc
      (fun h1 h2 => absurd ⟨h1, h2⟩ hx)
  · intro hx
    have hcons := hp.consistent
    have harr := EigenToPy.convertArray_ok ndebug cast M p mat hfit hr hc
    have hal1 : (NPY_CARRAY ||| NPY_OWNDATA) &&& NPY_ALIGNED ≠ 0 := by decide
    rw [if_pos hx] at harr
    have hA : p.np_type = .ARRAY_TYPE := hx.2
    refine ⟨⟨NumpyEquivalentType.type_code M.Scalar, [mat.rows],
      NPY_CARRAY ||| NPY_OWNDATA, mat.coeffs⟩, ?_, rfl, ?_, ?_⟩
    · simp only [EigenToPy.convert, harr, NumpyType.make_fst p hcons, hA, if_true]
    · intro hv
      simp [EigenFromPy.convertible, PyObject.asArray, hv, EigenFromPy.convertibleMatrix,
        PyArray_NDIM]
    · intro hv
      refine ⟨EigenFromPy.convertible_of_fits npy18 M _ _ mat.rows mat.cols rfl rfl hal1
        hfit hr hc (Or.inr ⟨rfl, hv⟩), ?_⟩
      intro hn
      exact EigenFromPy.construct_of_fits ndebug cast M _
        ⟨NumpyEquivalentType.type_code M.Scalar, [mat.rows],
          NPY_CARRAY ||| NPY_OWNDATA, mat.coeffs⟩ mat.rows mat.cols rfl rfl hfit hr hc
        (Or.inr ⟨rfl, hx.1, hv, hn⟩)

/-- C1 (witness): the round trip of a 3x1 `VectorXd` under the array flavor in a build
with `NDEBUG`, through the rank-1 array of length 3. -/
theorem round_trip_witness :
    ∃ a, (EigenToPy.convert true castKeep VectorXd Process.array ⟨3, 1, [1, 2, 3]⟩).1 =
        .ok (.ndarray a) ∧
      a.dims = [3] ∧
      EigenFromPy.convertible true VectorXd (.ndarray a) = true ∧
      EigenFromPy.construct true castKeep VectorXd (.ndarray a) =
        .ok (.value ⟨3, 1, [1, 2, 3]⟩) := by
  obtain ⟨a, h1, h2, _, h4⟩ :=
    (round_trip true true castKeep VectorXd Process.array ⟨3, 1, [1, 2, 3]⟩
      ⟨[.switchToNumpyArray], rfl⟩ (by decide) (by decide) (by decide)).2 ⟨rfl, rfl⟩
  exact ⟨a, h1, h2, (h4 (by decide)).1, (h4 (by decide)).2 rfl⟩

/-! ## C2: the promotion table -/

/-- C2: for a matrix type of scalar `B`, `isScalarConvertible` is true on the type number
of scalar `A` exactly when `A = B` or `A -> B` is one of int->long, int->float,
int->double, long->float, long->double, float->double; it is false on every type number
that is not one of the four; and when it accepts `A` for `B` with `A` different from `B`
it rejects `B` for `A`. -/
theorem isScalarConvertible_table (B : CScalar) :
    (∀ A : CScalar,
      EigenFromPy.isScalarConvertible B (NumpyEquivalentType.type_code A) = true ↔
        (A = B ∨ (A = .int ∧ B = .long) ∨ (A = .int ∧ B = .float) ∨ (A = .int ∧ B = .double) ∨
          (A = .long ∧ B = .float) ∨ (A = .long ∧ B = .double) ∨
          (A = .float ∧ B = .double))) ∧
    (∀ np_type : Int, (∀ A : CScalar, NumpyEquivalentType.type_code A ≠ np_type) →
      EigenFromPy.isScalarConvertible B np_type = false) ∧
    (∀ A : CScalar, A ≠ B →
      EigenFromPy.isScalarConvertible B (NumpyEquivalentType.type_code A) = true →
      EigenFromPy.isScalarConvertible A (NumpyEquivalentType.type_code B) = false) := by
  refine ⟨?_, ?_, ?_⟩
  · intro A
    cases A <;> cases B <;> decide
  · intro np_type h
    have h1 := h .int
    have h2 := h .long
    have h3 := h .float
    have h4 := h .double
    have hB := h B
    simp only [NumpyEquivalentType.type_code] at h1 h2 h3 h4
    unfold EigenFromPy.isScalarConvertible
    simp [hB, Ne.symm h1, Ne.symm h2, Ne.symm h3, Ne.symm h4]
  · intro A
    cases A <;> cases B <;> decide

/-! ## C3: rank-2 arrays offered to vector types -/

/-- C3: for an aligned rank-2 array of a kind that `isScalarConvertible` accepts,
`convertible` (a) accepts shape (1,1) for every vector type, (b) for `N > 1` accepts
shape (1,N) for a type with one fixed row and not one fixed column and rejects it for a
type with one fixed column, (c) for `N > 1` accepts shape (N,1) for a type with one
fixed column and not one fixed row and rejects it for a type with one fixed row. `wrap`
is the Python class of the array object (`ndarray` or `matrix`). -/
theorem convertible_vector_rank2 (npy18 : Bool) (M : MatType) (wrap : PyArrayObject → PyObject)
    (type_num : Int) (flags : Nat) (data : List Coeff) (N : Nat)
    (hwrap : ∀ a, (wrap a).asArray = some a)
    (hkind : EigenFromPy.isScalarConvertible M.Scalar type_num = true)
    (haligned : flags &&& NPY_ALIGNED ≠ 0) (hN : 1 < N) :
    (M.IsVectorAtCompileTime = true →
      EigenFromPy.convertible npy18 M (wrap ⟨type_num, [1, 1], flags, data⟩) = true) ∧
    (M.RowsAtCompileTime = 1 → M.ColsAtCompileTime ≠ 1 →
      EigenFromPy.convertible npy18 M (wrap ⟨type_num, [1, N], flags, data⟩) = true) ∧
    (M.ColsAtCompileTime = 1 →
      EigenFromPy.convertible npy18 M (wrap ⟨type_num, [1, N], flags, data⟩) = false) ∧
    (M.ColsAtCompileTime = 1 → M.RowsAtCompileTime ≠ 1 →
      EigenFromPy.convertible npy18 M (wrap ⟨type_num, [N, 1], flags, data⟩) = true) ∧
    (M.RowsAtCompileTime = 1 →
      EigenFromPy.convertible npy18 M (wrap ⟨type_num, [N, 1], flags, data⟩) = false) := by
  have hN1 : N ≠ 1 := by omega
  have hfl : ∀ dims, EigenFromPy.flagsOk npy18 ⟨type_num, dims, flags, data⟩ = true :=
    fun dims => flagsOk_of_aligned npy18 _ haligned
  refine ⟨?_, ?_, ?_, ?_, ?_⟩
  · intro hv
    simp [EigenFromPy.convertible, hwrap, GET_PY_ARRAY_TYPE, hkind, hv,
      EigenFromPy.convertibleVector]
  · intro hr hc
    simp [EigenFromPy.convertible, hwrap, GET_PY_ARRAY_TYPE, hkind,
      MatType.IsVectorAtCompileTime, EigenFromPy.convertibleVector, hr, hc, hN1, hfl]
  · intro hc
    simp [EigenFromPy.convertible, hwrap, GET_PY_ARRAY_TYPE, hkind,
      MatType.IsVectorAtCompileTime, EigenFromPy.convertibleVector, hc, hN1]
  · intro hc hr
    simp [EigenFromPy.convertible, hwrap, GET_PY_ARRAY_TYPE, hkind,
      MatType.IsVectorAtCompileTime, EigenFromPy.convertibleVector, hr, hc, hN1, hfl]
  · intro hr
    simp [EigenFromPy.convertible, hwrap, GET_PY_ARRAY_TYPE, hkind,
      MatType.IsVectorAtCompileTime, EigenFromPy.convertibleVector, hr, hN1]

/-- C3 (witness): an aligned 1x5 array of doubles is accepted for `RowVectorXd`. -/
theorem convertible_vector_rank2_witness :
    EigenFromPy.convertible true RowVectorXd
      (.ndarray ⟨NPY_DOUBLE, [1, 5], NPY_CARRAY, [1, 2, 3, 4, 5]⟩) = true :=
  (convertible_vector_rank2 true RowVectorXd PyObject.ndarray NPY_DOUBLE NPY_CARRAY
    [1, 2, 3, 4, 5] 5 (fun _ => rfl) (by decide) (by decide) (by decide)).2.1
    rfl (by decide)

/-! ## C4: arrays that are not aligned -/

/-- C4 (the code at the failing inputs): a vector type accepts a rank-1 array and a 1x1
rank-2 array whose flags word is zero, in both build variants, although the final test
of `convertible` fails for such arrays; and in a build with `NPY_1_8_API_VERSION` a
matrix type accepts a 2x2 array whose only flag is C-contiguity, without `NPY_ALIGNED`. -/
theorem convertible_accepts_unaligned :
    (∀ npy18 : Bool, EigenFromPy.convertible npy18 VectorXd
      (.ndarray ⟨NPY_DOUBLE, [3], 0, [1, 2, 3]⟩) = true) ∧
    (∀ npy18 : Bool, EigenFromPy.convertible npy18 VectorXd
      (.ndarray ⟨NPY_DOUBLE, [1, 1], 0, [1]⟩) = true) ∧
    (∀ npy18 : Bool, EigenFromPy.flagsOk npy18 ⟨NPY_DOUBLE, [3], 0, [1, 2, 3]⟩ = false) ∧
    (1 &&& NPY_ALIGNED = 0 ∧ EigenFromPy.convertible true MatrixXd
      (.ndarray ⟨NPY_DOUBLE, [2, 2], 1, [1, 2, 3, 4]⟩) = true) := by
  decide

/-! ## C5: arrays offered to matrix types -/

/-- C5: for a type that is not a vector type and an aligned array of a kind that
`isScalarConvertible` accepts, whose dimension sizes fit a 32-bit `int`, `convertible`
accepts the array exactly when its rank is 2, its first size is the compile-time row
count unless that is `Dynamic`, and its second size is the compile-time column count
unless that is `Dynamic`. -/
theorem convertible_matrix_iff (npy18 : Bool) (M : MatType) (o : PyObject) (a : PyArrayObject)
    (ho : o.asArray = some a)
    (hM : M.IsVectorAtCompileTime = false)
    (hkind : EigenFromPy.isScalarConvertible M.Scalar (GET_PY_ARRAY_TYPE a) = true)
    (haligned : a.flags &&& NPY_ALIGNED ≠ 0)
    (hdims : ∀ d ∈ a.dims, (d : Int) ≤ INT_MAX) :
    EigenFromPy.convertible npy18 M o = true ↔
      (PyArray_NDIM a = 2 ∧
        (M.RowsAtCompileTime ≠ Dynamic → ((a.dims.getD 0 0 : Nat) : Int) = M.RowsAtCompileTime) ∧
        (M.ColsAtCompileTime ≠ Dynamic → ((a.dims.getD 1 0 : Nat) : Int) = M.ColsAtCompileTime)) := by
  have hfl := flagsOk_of_aligned npy18 a haligned
  simp only [EigenFromPy.convertible, ho, hkind, hM, EigenFromPy.convertibleMatrix, PyArray_NDIM]
  rcases hd : a.dims with _ | ⟨d0, _ | ⟨d1, _ | ⟨d2, rest⟩⟩⟩
  · simp
  · simp
  · have h0 : toInt32 (d0 : Int) = (d0 : Int) := toInt32_of_lt d0 (hdims d0 (by simp [hd]))
    have h1 : toInt32 (d1 : Int) = (d1 : Int) := toInt32_of_lt d1 (hdims d1 (by simp [hd]))
    simp only [h0, h1, hfl]
    simp only [List.length_cons, List.length_nil, List.getD_cons_zero, List.getD_cons_succ]
    rw [@eq_comm _ (d0 : Int) M.RowsAtCompileTime, @eq_comm _ (d1 : Int) M.ColsAtCompileTime]
    by_cases hr : M.RowsAtCompileTime = (d0 : Int) <;>
      by_cases hc : M.ColsAtCompileTime = (d1 : Int) <;>
      by_cases hrd : M.RowsAtCompileTime = Dynamic <;>
      by_cases hcd : M.ColsAtCompileTime = Dynamic <;>
      simp [hr, hc, hrd, hcd]
  · simp

/-- C5 (witness): an aligned 2x3 array of doubles offered to `MatrixXd`. -/
theorem convertible_matrix_iff_witness :
    EigenFromPy.convertible true MatrixXd
        (.ndarray ⟨NPY_DOUBLE, [2, 3], NPY_CARRAY, [1, 2, 3, 4, 5, 6]⟩) = true ↔
      (PyArray_NDIM ⟨NPY_DOUBLE, [2, 3], NPY_CARRAY, [1, 2, 3, 4, 5, 6]⟩ = 2 ∧
        (MatrixXd.RowsAtCompileTime ≠ Dynamic →
          (((([2, 3] : List Nat).getD 0 0 : Nat)) : Int) = MatrixXd.RowsAtCompileTime) ∧
        (MatrixXd.ColsAtCompileTime ≠ Dynamic →
          (((([2, 3] : List Nat).getD 1 0 : Nat)) : Int) = MatrixXd.ColsAtCompileTime)) :=
  convertible_matrix_iff true MatrixXd
    (.ndarray ⟨NPY_DOUBLE, [2, 3], NPY_CARRAY, [1, 2, 3, 4, 5, 6]⟩)
    ⟨NPY_DOUBLE, [2, 3], NPY_CARRAY, [1, 2, 3, 4, 5, 6]⟩ rfl (by decide) (by decide) (by decide)
    (by decide)

/-! ## C6: the rank of the array that the outbound conversion allocates -/

/-- C6 (counterexample): under the array flavor the 1x1 value of `VectorXd` is given a
rank-1 array of length 1, not a rank-2 array of shape (1,1). -/
theorem convert_one_by_one_rank1 :
    EigenToPy.convertArray true castKeep VectorXd Process.array ⟨1, 1, [7]⟩ =
      .ok ⟨NPY_DOUBLE, [1], NPY_CARRAY ||| NPY_OWNDATA, [7]⟩ ∧
    ([1] : List Nat) ≠ [1, 1] :=
  ⟨rfl, by decide⟩

/-- C6 (amended): for every matrix value whose sizes fit its type and are below
`INT_MAX`, the outbound conversion allocates an array of the type's own kind, of rank 1
and length `rows` when the value has one column and the flavor is `ARRAY_TYPE` (whatever
the number of rows), and of rank 2 and shape (`rows`, `cols`) in every other case. -/
theorem convertArray_rank (ndebug : Bool) (cast : CScalar → CScalar → Coeff → Coeff)
    (M : MatType) (p : Process) (mat : EigenMatrix)
    (hfit : M.fits mat.rows mat.cols = true)
    (hr : (mat.rows : Int) < INT_MAX) (hc : (mat.cols : Int) < INT_MAX) :
    ∃ a, EigenToPy.convertArray ndebug cast M p mat = .ok a ∧
      a.type_num = NumpyEquivalentType.type_code M.Scalar ∧
      (mat.cols = 1 ∧ NumpyType.getType p = .ARRAY_TYPE → a.dims = [mat.rows]) ∧
      (¬ (mat.cols = 1 ∧ NumpyType.getType p = .ARRAY_TYPE) → a.dims = [mat.rows, mat.cols]) := by
  refine ⟨_, EigenToPy.convertArray_ok ndebug cast M p mat hfit hr hc, rfl, ?_, ?_⟩
  · intro h
    simp only [h, and_self, if_true]
  · intro h
    simp only [h, if_false]

/-- C6 (witness): a 2x3 `MatrixXd` under the array flavor is given a rank-2 array. -/
theorem convertArray_rank_witness :
    ∃ a, EigenToPy.convertArray true castKeep MatrixXd Process.array
        ⟨2, 3, [1, 2, 3, 4, 5, 6]⟩ = .ok a ∧
      a.type_num = NumpyEquivalentType.type_code MatrixXd.Scalar ∧
      ((3 : Nat) = 1 ∧ NumpyType.getType Process.array = .ARRAY_TYPE → a.dims = [2]) ∧
      (¬ ((3 : Nat) = 1 ∧ NumpyType.getType Process.array = .ARRAY_TYPE) → a.dims = [2, 3]) :=
  convertArray_rank true castKeep MatrixXd Process.array ⟨2, 3, [1, 2, 3, 4, 5, 6]⟩
    (by decide) (by decide) (by decide)

/-! ## C7: references and the kind of the array -/

/-- C7 (counterexample): registering `eigenpy::Ref<MatrixXd>` in an empty registry
pushes one from-Python entry, the converter of `MatrixXd`; the array kind `int` differs
from the scalar `double` of the type, and yet that entry accepts an aligned 2x2 array of
`int` in both build variants, and its construction returns a value. -/
theorem ref_converter_accepts_promotable_kind :
    enableEigenPySpecific (.ref MatrixXd) ⟨[], []⟩ =
      ⟨[(.ref MatrixXd, .ref MatrixXd)], [⟨.plain MatrixXd, .plain MatrixXd⟩]⟩ ∧
    NumpyEquivalentType.type_code MatrixXd.Scalar ≠ NPY_INT ∧
    (∀ npy18 : Bool, FromPyEntry.convertible npy18 ⟨.plain MatrixXd, .plain MatrixXd⟩
      (.ndarray ⟨NPY_INT, [2, 2], NPY_CARRAY, [1, 2, 3, 4]⟩) = true) ∧
    (∀ ndebug : Bool, FromPyEntry.construct ndebug castKeep ⟨.plain MatrixXd, .plain MatrixXd⟩
      (.ndarray ⟨NPY_INT, [2, 2], NPY_CARRAY, [1, 2, 3, 4]⟩) =
        .ok (.value ⟨2, 2, [1, 2, 3, 4]⟩)) :=
  ⟨rfl, by decide, by decide, fun ndebug => by cases ndebug <;> rfl⟩

/-- C7 (amended): for every `eigenpy::Ref<MatType>` of scalar `B`, the registration
pushes exactly one from-Python entry, the value converter of `MatType`. For an array of
kind `A` different from `B`, that converter rejects the array when `A` is not promotable
to `B`; when `A` is promotable it accepts exactly when the shape and flags tests of
`convertible` pass; and on an accepted array its construction is, after the `assert` of
a build without `NDEBUG`, the one assignment that casts each element from `A` to `B`
into a new value: it returns a value with the cast elements whenever the sizes of the
view fit the type, and no reference to the buffer of the array. -/
theorem ref_registration_value_converter (npy18 ndebug : Bool)
    (cast : CScalar → CScalar → Coeff → Coeff) (M : MatType) (r : Registry)
    (o : PyObject) (a : PyArrayObject) (A : CScalar)
    (ho : o.asArray = some a)
    (hA : NumpyEquivalentType.type_code A = GET_PY_ARRAY_TYPE a)
    (hne : A ≠ M.Scalar) :
    EigenFromPyConverter.registration (.ref M) r = r.push_back ⟨.plain M, .plain M⟩ ∧
    (FromTypeToType A M.Scalar = false →
      FromPyEntry.convertible npy18 ⟨.plain M, .plain M⟩ o = false) ∧
    (FromTypeToType A M.Scalar = true →
      FromPyEntry.convertible npy18 ⟨.plain M, .plain M⟩ o =
        if M.IsVectorAtCompileTime then EigenFromPy.convertibleVector npy18 M a
        else EigenFromPy.convertibleMatrix npy18 M a) ∧
    (FromPyEntry.convertible npy18 ⟨.plain M, .plain M⟩ o = true →
      FromPyEntry.construct ndebug cast ⟨.plain M, .plain M⟩ o =
        (match (if ndebug then .ok () else EigenFromPy.constructAssert a) with
          | .error e => .error e
          | .ok _ => assignFromMap M a (cast A M.Scalar)) ∧
      (∀ rows cols : Nat, ndebug = true → MapNumpy.map M a = some (rows, cols) →
        M.fits rows cols = true →
        FromPyEntry.construct ndebug cast ⟨.plain M, .plain M⟩ o =
          .ok (.value ⟨rows, cols, a.data.map (cast A M.Scalar)⟩))) := by
  have hk : EigenFromPy.isScalarConvertible M.Scalar (GET_PY_ARRAY_TYPE a) =
      FromTypeToType A M.Scalar := by
    rw [← hA]
    cases A <;> cases M.Scalar <;> decide
  refine ⟨rfl, ?_, ?_, ?_⟩
  · intro hf
    simp [FromPyEntry.convertible, TypeId.matType, EigenFromPy.convertible, ho, hk, hf]
  · intro hf
    simp [FromPyEntry.convertible, TypeId.matType, EigenFromPy.convertible, ho, hk, hf]
  · intro hacc
    simp only [FromPyEntry.convertible, TypeId.matType] at hacc
    obtain ⟨_, ⟨s, hs⟩⟩ := EigenFromPy.convertible_kind_and_init npy18 ndebug M o a ho hacc
    have heq := EigenObjectAllocator.allocate_eq ndebug cast M a s A hs hA
    rw [if_neg hne] at heq
    have hcon : FromPyEntry.construct ndebug cast ⟨.plain M, .plain M⟩ o =
        (match (if ndebug then .ok () else EigenFromPy.constructAssert a) with
          | .error e => .error e
          | .ok _ => assignFromMap M a (cast A M.Scalar)) := by
      simp only [FromPyEntry.construct, TypeId.matType, EigenFromPy.construct, ho, heq]
      cases ndebug
      · simp only [Bool.false_eq_true, if_false]
      · rfl
    refine ⟨hcon, ?_⟩
    intro rows cols hn hmap hfit
    rw [hcon, hn]
    simp only [if_true, assignFromMap, hmap, hfit]

/-- C7 (witness): the aligned 2x2 array of `int` offered to the entry that the
registration of `eigenpy::Ref<MatrixXd>` pushes, in a build with `NDEBUG`. -/
theorem ref_registration_value_converter_witness :
    FromPyEntry.construct true castKeep ⟨.plain MatrixXd, .plain MatrixXd⟩
      (.ndarray ⟨NPY_INT, [2, 2], NPY_CARRAY, [1, 2, 3, 4]⟩) =
        .ok (.value ⟨2, 2, ([1, 2, 3, 4] : List Coeff).map (castKeep .int MatrixXd.Scalar)⟩) :=
  ((ref_registration_value_converter true true castKeep MatrixXd ⟨[], []⟩
    (.ndarray ⟨NPY_INT, [2, 2], NPY_CARRAY, [1, 2, 3, 4]⟩)
    ⟨NPY_INT, [2, 2], NPY_CARRAY, [1, 2, 3, 4]⟩ .int rfl rfl (by decide)).2.2.2
      (by decide)).2 2 2 rfl rfl (by decide)

/-! ## C8: the flavor in one outbound conversion -/

/-- C8: from every reachable state, `make` on an array of rank at most 2 (a) adds one
warning exactly when the flavor is `DEFAULT_TYPE` and otherwise adds none, (b) from
`DEFAULT_TYPE` sets the flavor to `MATRIX_TYPE` and returns a matrix, (c) from
`MATRIX_TYPE` leaves the state unchanged and returns a matrix, (d) from `ARRAY_TYPE`
leaves the state unchanged and returns the array itself; and (e) after
`switchToNumpyArray`, from any state, `make` returns the array itself and leaves that
state unchanged, so that this holds for every later conversion until another switch. -/
theorem make_flavor (p : Process) (hp : Reachable p) (a : PyArrayObject) (copy : Bool)
    (hrank : PyArray_NDIM a ≤ 2) :
    ((NumpyType.make p (.ndarray a) copy).2.warnings = p.warnings + 1 ↔
      NumpyType.getType p = .DEFAULT_TYPE) ∧
    (NumpyType.getType p ≠ .DEFAULT_TYPE →
      (NumpyType.make p (.ndarray a) copy).2.warnings = p.warnings) ∧
    (NumpyType.getType p = .DEFAULT_TYPE →
      NumpyType.getType (NumpyType.make p (.ndarray a) copy).2 = .MATRIX_TYPE ∧
      ∃ a', (NumpyType.make p (.ndarray a) copy).1 = .ok (.matrix a') ∧ a'.data = a.data) ∧
    (NumpyType.getType p = .MATRIX_TYPE →
      (NumpyType.make p (.ndarray a) copy).2 = p ∧
      ∃ a', (NumpyType.make p (.ndarray a) copy).1 = .ok (.matrix a') ∧ a'.data = a.data) ∧
    (NumpyType.getType p = .ARRAY_TYPE →
      (NumpyType.make p (.ndarray a) copy).2 = p ∧
      (NumpyType.make p (.ndarray a) copy).1 = .ok (.ndarray a)) ∧
    (∀ q : Process, NumpyType.make (NumpyType.switchToNumpyArray q) (.ndarray a) copy =
      (.ok (.ndarray a), NumpyType.switchToNumpyArray q)) ∧
    (∀ (q : Process) (ops : List Op), (∀ op ∈ ops, op.isMake = true) →
      run ops (NumpyType.switchToNumpyArray q) = NumpyType.switchToNumpyArray q) := by
  have hc := hp.consistent
  have hsnd := NumpyType.make_snd p hc (.ndarray a) copy
  have hfst := NumpyType.make_fst p hc (.ndarray a) copy
  obtain ⟨a', hm, hdata, _⟩ := numpy_matrix_of_rank a copy hrank
  have hfix : ∀ (q : Process) (o : PyObject) (c : Bool),
      NumpyType.make (NumpyType.switchToNumpyArray q) o c =
        (.ok o, NumpyType.switchToNumpyArray q) := by
    intro q o c
    obtain ⟨inst, np, w⟩ := q
    rcases inst with _ | ⟨⟨cur⟩⟩ <;> rfl
  simp only [NumpyType.getType] at *
  refine ⟨?_, ?_, ?_, ?_, ?_, fun q => hfix q _ _, ?_⟩
  · rw [hsnd]
    by_cases hd : p.np_type = .DEFAULT_TYPE <;> simp [hd]
  · intro hd
    rw [hsnd, if_neg hd]
  · intro hd
    rw [hsnd, hfst]
    simp [hd, hm, hdata]
  · intro hd
    rw [hsnd, hfst]
    simp [hd, hm, hdata]
  · intro hd
    rw [hsnd, hfst]
    simp [hd]
  · intro q ops hops
    induction ops with
    | nil => rfl
    | cons op ops ih =>
      have hop := hops op (List.mem_cons_self _ _)
      cases op with
      | make o c =>
        simp only [run, List.foldl_cons, Op.apply, hfix]
        exact ih (fun x hx => hops x (List.mem_cons_of_mem _ hx))
      | switchToNumpyArray => simp [Op.isMake] at hop
      | switchToNumpyMatrix => simp [Op.isMake] at hop
      | setNumpyType obj => simp [Op.isMake] at hop

/-- C8 (witness): the first conversion of a process, of a 2x2 array. -/
theorem make_flavor_witness :
    NumpyType.getType (NumpyType.make Process.init
      (.ndarray ⟨NPY_DOUBLE, [2, 2], NPY_CARRAY, [1, 2, 3, 4]⟩) false).2 = .MATRIX_TYPE ∧
    ∃ a', (NumpyType.make Process.init
      (.ndarray ⟨NPY_DOUBLE, [2, 2], NPY_CARRAY, [1, 2, 3, 4]⟩) false).1 = .ok (.matrix a') ∧
      a'.data = [1, 2, 3, 4] :=
  (make_flavor Process.init ⟨[], rfl⟩ ⟨NPY_DOUBLE, [2, 2], NPY_CARRAY, [1, 2, 3, 4]⟩ false
    (by decide)).2.2.1 rfl

/-! ## C9: the warning is emitted once -/

/-- C9: along every finite sequence of `make`, `switchToNumpyArray`,
`switchToNumpyMatrix` and `setNumpyType` from process start, (a) at most one warning is
emitted in all, (b) an operation that emits a warning is a `make` that runs while the
flavor is `DEFAULT_TYPE`, after no operation that selected a flavor and after no other
`make`, (c) an operation that starts from a flavor other than `DEFAULT_TYPE` ends in a
flavor other than `DEFAULT_TYPE`. -/
theorem warning_at_most_once (ops : List Op) :
    (run ops Process.init).warnings ≤ 1 ∧
    (∀ (pre : List Op) (op : Op) (post : List Op), ops = pre ++ op :: post →
      (op.apply (run pre Process.init)).warnings ≠ (run pre Process.init).warnings →
        op.isMake = true ∧ NumpyType.getType (run pre Process.init) = .DEFAULT_TYPE ∧
        ∀ x ∈ pre, x.selects = false ∧ x.isMake = false) ∧
    (∀ (pre : List Op) (op : Op) (post : List Op), ops = pre ++ op :: post →
      NumpyType.getType (run pre Process.init) ≠ .DEFAULT_TYPE →
      NumpyType.getType (op.apply (run pre Process.init)) ≠ .DEFAULT_TYPE) := by
  refine ⟨(run_warnings ops).1, ?_, ?_⟩
  · intro pre op post _ hw
    have hc := run_consistent pre Process.init rfl
    obtain ⟨h1, _, _⟩ := Op.apply_step op _ hc
    obtain ⟨hm, hd, _⟩ := h1 hw
    exact ⟨hm, hd, run_default pre hd⟩
  · intro pre op post _ hnd
    have hc := run_consistent pre Process.init rfl
    exact (Op.apply_step op _ hc).2.1 hnd

/-! ## C10: registration -/

/-- C10: for every native type and every registry, enabling the type twice leaves the
registry that enabling it once leaves; after the first call `check_registration` holds;
and when the type was not registered, the first call sets its to-Python converter and
appends its from-Python entries (two for a matrix type, one for a reference) to the
chain. -/
theorem enableEigenPySpecific_idempotent (T : NativeType) (r : Registry) :
    enableEigenPySpecific T (enableEigenPySpecific T r) = enableEigenPySpecific T r ∧
    check_registration T (enableEigenPySpecific T r) = true ∧
    (check_registration T r = false →
      (T.type_id, T.type_id) ∈ (enableEigenPySpecific T r).to_python ∧
      (enableEigenPySpecific T r).from_python = r.from_python ++
        (match T with
          | .mat M => [⟨.plain M, .plain M⟩, ⟨.matrixBase M, .matrixBase M⟩]
          | .ref M => [⟨.plain M, .plain M⟩])) := by
  have hnew : check_registration T r ≠ true → enableEigenPySpecific T r =
      EigenFromPyConverter.registration T (r.to_python_converter T.type_id) := by
    intro h
    unfold enableEigenPySpecific
    rw [if_neg h]
  have hold : ∀ r' : Registry, check_registration T r' = true →
      enableEigenPySpecific T r' = r' := by
    intro r' h
    unfold enableEigenPySpecific
    rw [if_pos h]
  have hreg : check_registration T (enableEigenPySpecific T r) = true := by
    by_cases h : check_registration T r = true
    · rw [hold r h]
      exact h
    · rw [hnew h]
      cases T <;>
        simp [check_registration, EigenFromPyConverter.registration,
          EigenFromPy.registration, Registry.push_back, Registry.to_python_converter]
  refine ⟨hold _ hreg, hreg, ?_⟩
  · intro h
    rw [hnew (by simp [h])]
    cases T <;>
      simp [EigenFromPyConverter.registration,
        EigenFromPy.registration, Registry.push_back, Registry.to_python_converter]

/-! ## C11: rank-2 arrays that a vector type accepts -/

/-- C11 (counterexample): `VectorXd` accepts an aligned array of shape (0,5), in both
build variants, and neither 0 nor 5 is 1. -/
theorem convertible_vector_zero_axis :
    (∀ npy18 : Bool, EigenFromPy.convertible npy18 VectorXd
      (.ndarray ⟨NPY_DOUBLE, [0, 5], NPY_CARRAY, []⟩) = true) ∧
    (0 : Nat) ≠ 1 ∧ (5 : Nat) ≠ 1 := by
  decide

/-- C11 (amended): when `convertible` accepts a rank-2 array of sizes `d0`, `d1` for a
vector type, the two sizes are not both above 1: one of them is 1, or one of them is 0
and the array is empty. -/
theorem convertible_vector_rank2_shape (npy18 : Bool) (M : MatType) (o : PyObject)
    (a : PyArrayObject) (d0 d1 : Nat)
    (ho : o.asArray = some a) (hd : a.dims = [d0, d1])
    (hM : M.IsVectorAtCompileTime = true)
    (hacc : EigenFromPy.convertible npy18 M o = true) :
    d0 = 1 ∨ d1 = 1 ∨ d0 = 0 ∨ d1 = 0 := by
  simp only [EigenFromPy.convertible, ho, hM, EigenFromPy.convertibleVector, hd] at hacc
  by_contra hne
  have h0 : 1 < d0 := by omega
  have h1 : 1 < d1 := by omega
  have e0 : d0 ≠ 1 := by omega
  simp [h0, h1, e0] at hacc

/-- C11 (witness): the 5x1 array that `VectorXd` accepts. -/
theorem convertible_vector_rank2_shape_witness :
    (5 : Nat) = 1 ∨ (1 : Nat) = 1 ∨ (5 : Nat) = 0 ∨ (1 : Nat) = 0 :=
  convertible_vector_rank2_shape true VectorXd
    (.ndarray ⟨NPY_DOUBLE, [5, 1], NPY_CARRAY, [1, 2, 3, 4, 5]⟩)
    ⟨NPY_DOUBLE, [5, 1], NPY_CARRAY, [1, 2, 3, 4, 5]⟩ 5 1 rfl rfl (by decide) (by decide)

/-! ## C12: the length of rank-1 arrays -/

/-- C12 (the code at the failing input): `Vector3d`, whose length is fixed to 3, accepts
an aligned rank-1 array of doubles of length 5 in both build variants; the construction
from that array then stops at the assignment, whose sizes do not fit. -/
theorem convertible_ignores_fixed_length :
    (∀ npy18 : Bool, EigenFromPy.convertible npy18 Vector3d
      (.ndarray ⟨NPY_DOUBLE, [5], NPY_CARRAY, [1, 2, 3, 4, 5]⟩) = true) ∧
    EigenFromPy.construct true castKeep Vector3d
      (.ndarray ⟨NPY_DOUBLE, [5], NPY_CARRAY, [1, 2, 3, 4, 5]⟩) = .error .sizeMismatch ∧
    Vector3d.RowsAtCompileTime ≠ Dynamic ∧ Vector3d.RowsAtCompileTime ≠ 5 :=
  ⟨by decide, rfl, by decide, by decide⟩

/-! ## C13: the dispatch on the kind in `allocate` -/

/-- C13: for every array that `convertible` accepts for a type of scalar `B`, the kind
`A` of the array is one of the four, and `allocate` is exactly one assignment through
the view: without conversion when `A = B`, with the element-wise conversion from `A` to
`B` otherwise. It never returns storage that was not assigned, and when the sizes of
the view fit the type it returns the value read from the array. -/
theorem allocate_dispatch (npy18 ndebug : Bool) (cast : CScalar → CScalar → Coeff → Coeff)
    (M : MatType) (o : PyObject) (a : PyArrayObject)
    (ho : o.asArray = some a)
    (hacc : EigenFromPy.convertible npy18 M o = true) :
    ∃ A : CScalar, NumpyEquivalentType.type_code A = GET_PY_ARRAY_TYPE a ∧
      EigenObjectAllocator.allocate ndebug cast M a =
        assignFromMap M a (if A = M.Scalar then id else cast A M.Scalar) ∧
      (∀ r c : Int, EigenObjectAllocator.allocate ndebug cast M a ≠ .ok (.uninitialized r c)) ∧
      (∀ r c : Nat, MapNumpy.map M a = some (r, c) → M.fits r c = true →
        EigenObjectAllocator.allocate ndebug cast M a =
          .ok (.value ⟨r, c, a.data.map (if A = M.Scalar then id else cast A M.Scalar)⟩)) := by
  obtain ⟨⟨A, hA⟩, ⟨s, hs⟩⟩ :=
    EigenFromPy.convertible_kind_and_init npy18 ndebug M o a ho hacc
  have heq := EigenObjectAllocator.allocate_eq ndebug cast M a s A hs hA
  refine ⟨A, hA, heq, ?_, ?_⟩
  · intro r c hu
    rw [heq] at hu
    unfold assignFromMap at hu
    split at hu
    · exact absurd hu (by simp)
    · split_ifs at hu <;> exact absurd hu (by simp)
  · intro r c hmap hfit
    rw [heq]
    simp only [assignFromMap, hmap, hfit, if_true]

/-- C13 (witness): an aligned 2x2 array of `int` offered to `MatrixXd`. -/
theorem allocate_dispatch_witness :
    ∃ A : CScalar, NumpyEquivalentType.type_code A =
        GET_PY_ARRAY_TYPE ⟨NPY_INT, [2, 2], NPY_CARRAY, [1, 2, 3, 4]⟩ ∧
      EigenObjectAllocator.allocate true castKeep MatrixXd
          ⟨NPY_INT, [2, 2], NPY_CARRAY, [1, 2, 3, 4]⟩ =
        assignFromMap MatrixXd ⟨NPY_INT, [2, 2], NPY_CARRAY, [1, 2, 3, 4]⟩
          (if A = MatrixXd.Scalar then id else castKeep A MatrixXd.Scalar) ∧
      (∀ r c : Int, EigenObjectAllocator.allocate true castKeep MatrixXd
        ⟨NPY_INT, [2, 2], NPY_CARRAY, [1, 2, 3, 4]⟩ ≠ .ok (.uninitialized r c)) ∧
      (∀ r c : Nat, MapNumpy.map MatrixXd ⟨NPY_INT, [2, 2], NPY_CARRAY, [1, 2, 3, 4]⟩ =
          some (r, c) → MatrixXd.fits r c = true →
        EigenObjectAllocator.allocate true castKeep MatrixXd
            ⟨NPY_INT, [2, 2], NPY_CARRAY, [1, 2, 3, 4]⟩ =
          .ok (.value ⟨r, c, ([1, 2, 3, 4] : List Coeff).map
            (if A = MatrixXd.Scalar then id else castKeep A MatrixXd.Scalar)⟩)) :=
  allocate_dispatch true true castKeep MatrixXd
    (.ndarray ⟨NPY_INT, [2, 2], NPY_CARRAY, [1, 2, 3, 4]⟩)
    ⟨NPY_INT, [2, 2], NPY_CARRAY, [1, 2, 3, 4]⟩ rfl (by decide)

/-! ## C14: the flavor enum and the current handle agree -/

/-- C14: in every reachable state the flavor is `ARRAY_TYPE` exactly when the current
handle is the ndarray handle, and otherwise the current handle is the matrix handle;
hence an outbound conversion that allocated a rank-1 array returns that array itself,
and one that returns a matrix allocated a rank-2 array. -/
theorem flavor_consistent (p : Process) (hp : Reachable p) :
    (NumpyType.getType p = .ARRAY_TYPE ↔
      (NumpyType.getInstance p).1.CurrentNumpyType = NumpyArrayObject) ∧
    (NumpyType.getType p ≠ .ARRAY_TYPE →
      (NumpyType.getInstance p).1.CurrentNumpyType = NumpyMatrixObject) ∧
    (∀ (ndebug : Bool) (cast : CScalar → CScalar → Coeff → Coeff) (M : MatType)
      (mat : EigenMatrix) (a0 : PyArrayObject),
      EigenToPy.convertArray ndebug cast M p mat = .ok a0 →
        (PyArray_NDIM a0 = 1 →
          (EigenToPy.convert ndebug cast M p mat).1 = .ok (.ndarray a0)) ∧
        (∀ b, (EigenToPy.convert ndebug cast M p mat).1 = .ok (.matrix b) →
          PyArray_NDIM a0 = 2 ∧ PyArray_NDIM b = 2)) := by
  have hc := hp.consistent
  refine ⟨?_, ?_, ?_⟩
  · obtain ⟨inst, np, w⟩ := p
    rcases inst with _ | ⟨⟨cur⟩⟩
    · simp only [Process.Consistent] at hc
      simp [NumpyType.getType, NumpyType.getInstance, hc, NumpyMatrixObject, NumpyArrayObject]
    · simp only [Process.Consistent] at hc
      rcases hc with ⟨h1, h2⟩ | ⟨h1, h2⟩
      · simp [NumpyType.getType, NumpyType.getInstance, h1, h2]
      · simp [NumpyType.getType, NumpyType.getInstance, h1, h2, NumpyMatrixObject,
          NumpyArrayObject]
  · obtain ⟨inst, np, w⟩ := p
    rcases inst with _ | ⟨⟨cur⟩⟩
    · intro _
      rfl
    · simp only [Process.Consistent] at hc
      rcases hc with ⟨h1, h2⟩ | ⟨h1, h2⟩
      · intro h
        exact absurd h1 h
      · intro _
        exact h2
  · intro ndebug cast M mat a0 harr
    have hnd := EigenToPy.convertArray_ndim ndebug cast M p mat a0 harr
    have hfst := NumpyType.make_fst p hc (.ndarray a0) false
    simp only [EigenToPy.convert, harr, hfst]
    simp only [NumpyType.getType] at hnd
    constructor
    · intro h1
      rcases hnd with ⟨_, hA⟩ | h2
      · rw [if_pos hA]
      · omega
    · intro b hb
      by_cases hA : p.np_type = .ARRAY_TYPE
      · rw [if_pos hA] at hb
        injection hb with hb
        exact absurd hb (by simp)
      · rw [if_neg hA] at hb
        rcases hnd with ⟨_, hA'⟩ | h2
        · exact absurd hA' hA
        · refine ⟨h2, ?_⟩
          obtain ⟨t, dims, f, d⟩ := a0
          rcases dims with _ | ⟨d0, _ | ⟨d1, _ | ⟨d2, rest⟩⟩⟩
          · simp [PyArray_NDIM] at h2
          · simp [PyArray_NDIM] at h2
          · simp only [numpy_matrix, PyObject.asArray] at hb
            injection hb with hb
            injection hb with hb
            rw [← hb]
            rfl
          · simp [PyArray_NDIM] at h2

/-- C14 (witness): the state after `switchToNumpyArray` at process start. -/
theorem flavor_consistent_witness :
    NumpyType.getType Process.array = .ARRAY_TYPE ↔
      (NumpyType.getInstance Process.array).1.CurrentNumpyType = NumpyArrayObject :=
  (flavor_consistent Process.array ⟨[.switchToNumpyArray], rfl⟩).1

/-! ## C15: reads of the dimension sizes during construction -/

/-- C15 (the code at the failing input): `VectorXd` accepts an aligned rank-1 array of
length 3; in a build without `NDEBUG` the `assert` of `construct` reads
`PyArray_DIMS(pyArray)[1]`, an index that is not below the rank, and the construction
stops there, while `initEigenObject::run` reads index 0 only and the construction of a
build with `NDEBUG` returns the vector. -/
theorem construct_assert_reads_past_rank :
    (∀ npy18 : Bool, EigenFromPy.convertible npy18 VectorXd
      (.ndarray ⟨NPY_DOUBLE, [3], NPY_CARRAY, [1, 2, 3]⟩) = true) ∧
    PyArray_NDIM ⟨NPY_DOUBLE, [3], NPY_CARRAY, [1, 2, 3]⟩ = 1 ∧
    PyArray_DIMS ⟨NPY_DOUBLE, [3], NPY_CARRAY, [1, 2, 3]⟩ 1 = .error .dimsOutOfRange ∧
    EigenFromPy.constructAssert ⟨NPY_DOUBLE, [3], NPY_CARRAY, [1, 2, 3]⟩ =
      .error .dimsOutOfRange ∧
    EigenFromPy.construct false castKeep VectorXd
      (.ndarray ⟨NPY_DOUBLE, [3], NPY_CARRAY, [1, 2, 3]⟩) = .error .dimsOutOfRange ∧
    initEigenObject.run false VectorXd ⟨NPY_DOUBLE, [3], NPY_CARRAY, [1, 2, 3]⟩ =
      .ok (.uninitialized 3 1) ∧
    EigenFromPy.construct true castKeep VectorXd
      (.ndarray ⟨NPY_DOUBLE, [3], NPY_CARRAY, [1, 2, 3]⟩) = .ok (.value ⟨3, 1, [1, 2, 3]⟩) :=
  ⟨by decide, rfl, rfl, rfl, rfl, rfl, rfl⟩

/-! ## C16: what `setNumpyType` selects and what it leaves -/

/-- C16: from every reachable state, `setNumpyType` on an object whose tested type is
`t` (a) selects the matrix flavor when `t` derives from the matrix type, whether or not
it also derives from the ndarray type, (b) otherwise selects the array flavor when `t`
derives from the ndarray type, (c) otherwise leaves the flavor enum and the current
handle as they were; and it never writes a warning. -/
theorem setNumpyType_frame (p : Process) (hp : Reachable p) (obj : BpObject) :
    (PyType_IsSubtype obj.obj_type NumpyMatrixObject = true →
      NumpyType.getType (NumpyType.setNumpyType obj p) = .MATRIX_TYPE ∧
      (NumpyType.getInstance (NumpyType.setNumpyType obj p)).1.CurrentNumpyType =
        NumpyMatrixObject) ∧
    (PyType_IsSubtype obj.obj_type NumpyMatrixObject = false →
      PyType_IsSubtype obj.obj_type NumpyArrayObject = true →
      NumpyType.getType (NumpyType.setNumpyType obj p) = .ARRAY_TYPE ∧
      (NumpyType.getInstance (NumpyType.setNumpyType obj p)).1.CurrentNumpyType =
        NumpyArrayObject) ∧
    (PyType_IsSubtype obj.obj_type NumpyMatrixObject = false →
      PyType_IsSubtype obj.obj_type NumpyArrayObject = false →
      NumpyType.getType (NumpyType.setNumpyType obj p) = NumpyType.getType p ∧
      (NumpyType.getInstance (NumpyType.setNumpyType obj p)).1.CurrentNumpyType =
        (NumpyType.getInstance p).1.CurrentNumpyType) ∧
    (NumpyType.setNumpyType obj p).warnings = p.warnings := by
  have hc := hp.consistent
  obtain ⟨inst, np, w⟩ := p
  rcases inst with _ | ⟨⟨cur⟩⟩
  · simp only [Process.Consistent] at hc
    subst hc
    refine ⟨?_, ?_, ?_, ?_⟩
    · intro h1
      simp [NumpyType.setNumpyType, h1, NumpyType.switchToNumpyMatrix, NumpyType.getInstance,
        NumpyType.getType]
    · intro h1 h2
      simp [NumpyType.setNumpyType, h1, h2, NumpyType.switchToNumpyArray,
        NumpyType.getInstance, NumpyType.getType]
    · intro h1 h2
      simp [NumpyType.setNumpyType, h1, h2, NumpyType.getInstance, NumpyType.getType]
    · simp only [NumpyType.setNumpyType, NumpyType.getInstance]
      split_ifs <;> rfl
  · refine ⟨?_, ?_, ?_, ?_⟩
    · intro h1
      simp [NumpyType.setNumpyType, h1, NumpyType.switchToNumpyMatrix, NumpyType.getInstance,
        NumpyType.getType]
    · intro h1 h2
      simp [NumpyType.setNumpyType, h1, h2, NumpyType.switchToNumpyArray,
        NumpyType.getInstance, NumpyType.getType]
    · intro h1 h2
      simp [NumpyType.setNumpyType, h1, h2, NumpyType.getInstance, NumpyType.getType]
    · simp only [NumpyType.setNumpyType, NumpyType.getInstance]
      split_ifs <;> rfl

/-- C16 (witness): at process start, a type that derives from `numpy.matrix` (and so
from `numpy.ndarray` too) selects the matrix flavor. -/
theorem setNumpyType_frame_witness :
    NumpyType.getType (NumpyType.setNumpyType (.typeObject .matrixSubclass) Process.init) =
      .MATRIX_TYPE ∧
    (NumpyType.getInstance
      (NumpyType.setNumpyType (.typeObject .matrixSubclass) Process.init)).1.CurrentNumpyType =
        NumpyMatrixObject :=
  (setNumpyType_frame Process.init ⟨[], rfl⟩ (.typeObject .matrixSubclass)).1 (by decide)

/-! ## C17: the promotion relation is a partial order -/

/-- C17: over the four scalar kinds, the relation "`isScalarConvertible` for a type of
kind `B` accepts the type number of kind `A`" is reflexive, antisymmetric and
transitive, and it is the relation `FromTypeToType`. -/
theorem isScalarConvertible_partial_order :
    (∀ A : CScalar,
      EigenFromPy.isScalarConvertible A (NumpyEquivalentType.type_code A) = true) ∧
    (∀ A B : CScalar,
      EigenFromPy.isScalarConvertible B (NumpyEquivalentType.type_code A) = true →
      EigenFromPy.isScalarConvertible A (NumpyEquivalentType.type_code B) = true → A = B) ∧
    (∀ A B C : CScalar,
      EigenFromPy.isScalarConvertible B (NumpyEquivalentType.type_code A) = true →
      EigenFromPy.isScalarConvertible C (NumpyEquivalentType.type_code B) = true →
      EigenFromPy.isScalarConvertible C (NumpyEquivalentType.type_code A) = true) ∧
    (∀ A B : CScalar,
      EigenFromPy.isScalarConvertible B (NumpyEquivalentType.type_code A) =
        FromTypeToType A B) := by
  refine ⟨?_, ?_, ?_, ?_⟩
  · intro A
    cases A <;> decide
  · intro A B
    cases A <;> cases B <;> decide
  · intro A B C
    cases A <;> cases B <;> cases C <;> decide
  · intro A B
    cases A <;> cases B <;> decide

/-! ## C18: fixed sizes and the conversion to int -/

/-- C18 (the code at the failing input): `Matrix2Xd`, whose row count is fixed to 2,
accepts an aligned empty array of shape (2^32 + 2, 0) in both build variants, because
the first size converted to `int` is 2; the `assert` of `construct` fails on that
array. -/
theorem convertible_wraps_fixed_size :
    (∀ npy18 : Bool, EigenFromPy.convertible npy18 Matrix2Xd
      (.ndarray ⟨NPY_DOUBLE, [4294967298, 0], NPY_CARRAY, []⟩) = true) ∧
    Matrix2Xd.IsVectorAtCompileTime = false ∧
    toInt32 (4294967298 : Nat) = 2 ∧
    ((4294967298 : Nat) : Int) ≠ Matrix2Xd.RowsAtCompileTime ∧
    EigenFromPy.constructAssert ⟨NPY_DOUBLE, [4294967298, 0], NPY_CARRAY, []⟩ =
      .error .assertion :=
  ⟨by decide, by decide, by decide, by decide, rfl⟩

end eigenpy
